import Mathlib

/-!
Verification of the Fluent UI icon search ranking engine.

A shallow embedding of the multi-layer icon search ranking engine of
`src/services/iconSearchService.ts` (and of the tool registration in
`server.ts`), together with proofs and refutations of the specification
claims about it.

Modelling conventions:
* JavaScript strings are Lean `String`s; character-level operations work on
  `String.data` (`List Char`).  All data handled by the engine (icon names,
  queries, mapping fragments) is ASCII, where Lean's `Char.toUpper` /
  `Char.toLower` agree with JavaScript's `toUpperCase` / `toLowerCase`.
* Scores are rationals (`ℚ`); the source uses JS doubles but every score is
  produced by field operations (`+`, `*`, `min`, `max`) on values derived
  from matcher scores, so `ℚ` reproduces them exactly for exact inputs.
* The Fuse.js fuzzy matchers, the generated catalog (`FLUENT_ICON_NAMES`),
  the generated visual-tag tables (`TAG_DICTIONARY`, `ICON_VISUAL_TAGS`),
  the generated size table (`getIconSizes`) and the synonym providers
  (`synonyms` package, WordNet) are external collaborators / generated
  artifacts that are not part of the ranking source; they are parameters of
  the embedding (`SearchEnv`, `SynonymEnv`).  A Fuse `search(q, {limit})`
  call is modelled as the full (already sorted, already
  threshold-filtered) match list provided by the environment, truncated by
  the engine with `List.take limit` — Fuse applies `limit` by truncating
  its sorted result list.
* The insertion-ordered JS `Map` used for per-icon layer scores is an
  association list in which `updateScores` updates in place or appends.
-/

-- Batteries marks the `Rat` field operations `@[irreducible]`; unseal them so
-- that concrete score arithmetic can be evaluated by `decide`.
unseal Rat.add Rat.sub Rat.mul Rat.inv

-- ============================================================================
-- JavaScript string primitives (ASCII semantics)
-- ============================================================================

/-- JS `String.prototype.toUpperCase` on one ASCII character. -/
def jsUpper (c : Char) : Char := c.toUpper

/-- JS `String.prototype.toLowerCase` on one ASCII character. -/
def jsLower (c : Char) : Char := c.toLower

/-- Characters matched by the JS regex `\s` (the ASCII ones). -/
def isJsSpace (c : Char) : Bool :=
  c = ' ' ∨ c = '\t' ∨ c = '\n' ∨ c = '\r' ∨ c = '\x0b' ∨ c = '\x0c'

/-- JS `toLowerCase` on a whole string. -/
def jsLowerStr (s : String) : String := String.mk (s.data.map jsLower)

/-- JS `String.prototype.trim`: strip leading and trailing whitespace. -/
def jsTrim (s : String) : String :=
  String.mk ((s.data.dropWhile isJsSpace).reverse.dropWhile isJsSpace |>.reverse)

/-- Maximal runs of non-whitespace characters of `l`. `split(/\s+/)` followed
by discarding empty tokens (as the engine does with `.filter(w => w.length > 0)`)
returns exactly these runs. -/
def spaceRuns : List Char → List (List Char)
  | [] => []
  | c :: cs =>
    if isJsSpace c then spaceRuns cs
    else
      match spaceRuns cs with
      | [] => [[c]]
      | w :: ws =>
        -- `c` extends the first run iff the next character is part of it,
        -- i.e. iff `cs` does not start with whitespace
        match cs with
        | [] => [[c]]
        | d :: _ => if isJsSpace d then [c] :: w :: ws else (c :: w) :: ws

/-- The expression `queryLower.split(/\s+/).filter(w => w.length > 0)` from `searchIcons`. -/
def splitQueryWords (s : String) : List String :=
  (spaceRuns s.data).map String.mk

/-- JS `String.prototype.indexOf`: index of the first occurrence of `q` as a
contiguous substring of `l` (`none` for JS `-1`). `indexOf("")` is `0`. -/
def indexOfSub (l q : List Char) : Option Nat :=
  if q.isPrefixOf l then some 0
  else
    match l with
    | [] => none
    | _ :: ls => (indexOfSub ls q).map (· + 1)

/-- JS `Array.prototype.indexOf` over a string array (`none` for `-1`). -/
def listIndexOf (l : List String) (x : String) : Option Nat :=
  match l with
  | [] => none
  | a :: as_ => if a = x then some 0 else (listIndexOf as_ x).map (· + 1)

-- ============================================================================
-- PascalCase segmentation  (iconSearchService.ts, splitPascalCase)
-- ============================================================================

/-- The character test in `splitPascalCase`'s loop:
`char === char.toUpperCase()` — true for uppercase letters and for every
character without a lowercase/uppercase distinction (digits, symbols). -/
def upperStable (c : Char) : Bool := jsUpper c = c

/-- Loop of `splitPascalCase`: `cur` is the `currentWord` accumulator. -/
def splitPascalCaseAux : List Char → List Char → List (List Char)
  | [], cur => if cur.isEmpty then [] else [cur]
  | c :: cs, cur =>
    if upperStable c ∧ ¬cur.isEmpty then
      cur :: splitPascalCaseAux cs [c]
    else
      splitPascalCaseAux cs (cur ++ [c])

/-- Function `splitPascalCase` from iconSearchService.ts: pushes `currentWord` and
restarts it whenever the current character equals its own uppercase form and
the accumulator is non-empty; pushes the final accumulator if non-empty. -/
def splitPascalCase (name : List Char) : List (List Char) :=
  splitPascalCaseAux name []

/-- Function `containsPascalWord` from iconSearchService.ts: does `pattern` occur as a
complete PascalCase word of `iconName` (case-insensitively)? -/
def containsPascalWord (iconName pattern : String) : Bool :=
  let words := splitPascalCase iconName.data
  let patternLower := pattern.data.map jsLower
  words.any fun word => word.map jsLower = patternLower

-- ============================================================================
-- Substring scoring  (iconSearchService.ts, getSubstringMatchScore)
-- ============================================================================

/-- The `isWordBoundary` expression of `getSubstringMatchScore`, for a match
of the query at index `idx` of the original-case `iconName`. -/
def isWordBoundaryAt (iconName : List Char) (idx : Nat) : Bool :=
  if idx = 0 then true
  else
    let beforeChar := iconName.getD (idx - 1) ' '
    let matchChar := iconName.getD idx ' '
    (jsLower beforeChar = beforeChar ∧ jsUpper matchChar = matchChar) ∨
      (jsUpper beforeChar = beforeChar ∧ beforeChar.isUpper)

/-- One iteration of the `for (const query of queryWords)` loop in
`getSubstringMatchScore`, folding the running `bestScore`. -/
def substringStep (iconName : List Char) (nameLower : List Char)
    (nameWords : List (List Char)) (best : Nat) (query : List Char) : Nat :=
  if query ∈ nameWords then max best 350
  else
    match indexOfSub nameLower query with
    | none => best
    | some idx => if isWordBoundaryAt iconName idx then max best 250 else max best 150

/-- Function `getSubstringMatchScore` from iconSearchService.ts
(0 = no match, 150 = embedded, 250 = word boundary, 350 = exact word). -/
def getSubstringMatchScore (iconName : String) (queryWords : List String) : Nat :=
  let nameLower := iconName.data.map jsLower
  let nameWords := (splitPascalCase iconName.data).map (·.map jsLower)
  queryWords.foldl (fun best q => substringStep iconName.data nameLower nameWords best q.data) 0

-- basic sanity checks against the examples in the source comments
example : splitPascalCase "DrinkBeerRegular".data =
    ["Drink".data, "Beer".data, "Regular".data] := by decide
example : containsPascalWord "DrinkCoffeeRegular" "Coffee" = true := by decide
example : containsPascalWord "TextListAbcUppercaseLtr" "Cup" = false := by decide
example : getSubstringMatchScore "DrinkBeerRegular" ["beer"] = 350 := by decide
example : getSubstringMatchScore "DrinkBeerRegular" ["drink"] = 350 := by decide
example : getSubstringMatchScore "GlobeErrorRegular" ["beer"] = 150 := by decide
example : getSubstringMatchScore "DrinkBeerRegular" ["drinkb"] = 250 := by decide

-- ============================================================================
-- Icon name parsing  (iconSearchService.ts, parseIconName)
-- ============================================================================

/-- A parsed catalog entry (`IconSearchItem` in the source). -/
structure IconSearchItem where
  name : String
  baseName : String
  variant : String
deriving Repr, DecidableEq

/-- JS `String.prototype.endsWith`. -/
def jsEndsWith (s suffix : String) : Bool := suffix.data.isSuffixOf s.data

/-- Function `parseIconName` from iconSearchService.ts: the regex
`/^(.+?)(Regular|Filled|Color)$/` strips the variant suffix when the rest is
non-empty (the alternatives are not suffixes of one another, so at most one
applies); otherwise base name is the whole name with variant `""`. -/
def parseIconName (name : String) : String × String :=
  if jsEndsWith name "Regular" ∧ 7 < name.data.length then
    (String.mk (name.data.take (name.data.length - 7)), "Regular")
  else if jsEndsWith name "Filled" ∧ 6 < name.data.length then
    (String.mk (name.data.take (name.data.length - 6)), "Filled")
  else if jsEndsWith name "Color" ∧ 5 < name.data.length then
    (String.mk (name.data.take (name.data.length - 5)), "Color")
  else (name, "")

/-- The `iconSearchItems` list: the catalog mapped through `parseIconName`. -/
def iconItems (catalog : List String) : List IconSearchItem :=
  catalog.map fun name =>
    let p := parseIconName name
    { name := name, baseName := p.1, variant := p.2 }

example : parseIconName "AddCircleRegular" = ("AddCircle", "Regular") := by decide
example : parseIconName "HeartFilled" = ("Heart", "Filled") := by decide
example : parseIconName "FlagColor" = ("Flag", "Color") := by decide
example : parseIconName "Regular" = ("Regular", "") := by decide
/-- The semanticIconMapping table from iconSearchService.ts: maps lowercase
concept keys to lists of icon name fragments (insertion order preserved). -/
def semanticIconMapping : List (String × List String) := [
  ("sparkle", ["Sparkle", "Star", "Wand", "Magic", "Glitter", "Shine", "Flash"]),
  ("magic", ["Wand", "Sparkle", "Star", "Magic"]),
  ("shine", ["Sparkle", "Star", "Sun", "Lightbulb", "Flash"]),
  ("glitter", ["Sparkle", "Star"]),
  ("glow", ["Sparkle", "Flash", "Lightbulb", "Star"]),
  ("bright", ["Sparkle", "Star", "Sun", "Lightbulb", "Brightness"]),
  ("add", ["Add", "Plus", "New", "Create"]),
  ("create", ["Add", "New", "Document", "Compose"]),
  ("new", ["Add", "New", "Document", "Plus"]),
  ("plus", ["Add", "Plus"]),
  ("insert", ["Add", "Insert", "Plus"]),
  ("delete", ["Delete", "Trash", "Remove", "Dismiss", "Clear"]),
  ("remove", ["Delete", "Remove", "Dismiss", "Subtract", "Minus"]),
  ("trash", ["Delete", "Trash"]),
  ("clear", ["Clear", "Dismiss", "Eraser", "Backspace"]),
  ("erase", ["Eraser", "Clear", "Delete", "Backspace"]),
  ("destroy", ["Delete", "Trash", "Dismiss"]),
  ("edit", ["Edit", "Pen", "Compose", "Rename"]),
  ("pencil", ["Edit", "Pen", "Compose", "Rename", "Draw"]),
  ("modify", ["Edit", "Settings", "Options", "Wrench"]),
  ("write", ["Edit", "Pen", "Compose", "TextEdit"]),
  ("compose", ["Compose", "Edit", "Mail", "New"]),
  ("change", ["Edit", "ArrowSync", "Rename", "Settings"]),
  ("update", ["ArrowSync", "Update", "Download", "Edit"]),
  ("draw", ["Edit", "Pen", "Ink", "Draw", "Brush"]),
  ("sketch", ["Edit", "Pen", "Draw", "Ink"]),
  ("save", ["Save", "Checkmark", "ArrowDownload", "Disk"]),
  ("download", ["ArrowDownload", "Download", "CloudDownload", "Save", "ArrowDown"]),
  ("upload", ["ArrowUpload", "Upload", "CloudUpload", "Send", "ArrowUp"]),
  ("export", ["ArrowExport", "Share", "Send", "Save"]),
  ("import", ["ArrowImport", "Folder", "Open"]),
  ("copy", ["Copy", "Clipboard", "Duplicate"]),
  ("paste", ["ClipboardPaste", "Paste", "Clipboard"]),
  ("cut", ["Cut", "Scissors"]),
  ("duplicate", ["Copy", "Duplicate", "Clone"]),
  ("clone", ["Copy", "Duplicate"]),
  ("undo", ["ArrowUndo", "Undo", "ArrowHook"]),
  ("redo", ["ArrowRedo", "Redo", "ArrowHook"]),
  ("revert", ["ArrowUndo", "Undo", "History"]),
  ("restore", ["ArrowUndo", "History", "Restore"]),
  ("arrow", ["Arrow", "Chevron", "Caret", "Triangle"]),
  ("left", ["ArrowLeft", "ChevronLeft", "Previous", "Back"]),
  ("right", ["ArrowRight", "ChevronRight", "Next", "Forward"]),
  ("up", ["ArrowUp", "ChevronUp", "CaretUp"]),
  ("down", ["ArrowDown", "ChevronDown", "CaretDown"]),
  ("back", ["ArrowLeft", "Back", "Previous", "ChevronLeft"]),
  ("forward", ["ArrowRight", "Forward", "Next", "ChevronRight"]),
  ("next", ["ArrowRight", "ChevronRight", "Next", "Forward"]),
  ("previous", ["ArrowLeft", "ChevronLeft", "Previous", "Back"]),
  ("direction", ["Arrow", "Navigation", "Compass"]),
  ("home", ["Home", "House"]),
  ("house", ["Home", "House", "Building"]),
  ("menu", ["Navigation", "Hamburger", "LineHorizontal", "MoreVertical", "MoreHorizontal"]),
  ("hamburger", ["Navigation", "LineHorizontal"]),
  ("sidebar", ["Panel", "Navigation", "Sidebar"]),
  ("panel", ["Panel", "Sidebar", "Window"]),
  ("email", ["Mail", "Envelope", "Send", "Read"]),
  ("mail", ["Mail", "Envelope", "Send"]),
  ("message", ["Chat", "Comment", "Message", "Bubble"]),
  ("chat", ["Chat", "Comment", "Message", "Bubble", "People"]),
  ("comment", ["Comment", "Chat", "Bubble"]),
  ("send", ["Send", "Mail", "ArrowRight", "Paper"]),
  ("call", ["Call", "Phone", "Video"]),
  ("phone", ["Call", "Phone", "Contact"]),
  ("video", ["Video", "Camera", "Call", "Film", "Play"]),
  ("talk", ["Chat", "Comment", "Mic", "Call"]),
  ("speak", ["Mic", "Speaker", "Chat", "Comment"]),
  ("conversation", ["Chat", "Comment", "Message", "Bubble"]),
  ("user", ["Person", "People", "Contact", "Guest", "Account"]),
  ("person", ["Person", "People", "Contact", "Account"]),
  ("people", ["People", "Person", "Group", "Team"]),
  ("team", ["People", "Group", "Organization"]),
  ("group", ["People", "Group", "Folder"]),
  ("profile", ["Person", "Contact", "Account", "Info"]),
  ("account", ["Person", "Account", "Key", "Lock"]),
  ("customer", ["Person", "People", "Contact"]),
  ("employee", ["Person", "People", "Contact", "Badge"]),
  ("member", ["Person", "People", "Contact"]),
  ("friend", ["Person", "People", "Heart"]),
  ("calendar", ["Calendar", "Date", "Event", "Clock"]),
  ("date", ["Calendar", "Date", "Clock"]),
  ("time", ["Clock", "Timer", "History", "Calendar"]),
  ("clock", ["Clock", "Timer", "Time"]),
  ("schedule", ["Calendar", "Clock", "Timer", "Event"]),
  ("event", ["Calendar", "Event", "Star"]),
  ("reminder", ["Alert", "Bell", "Clock", "Calendar"]),
  ("appointment", ["Calendar", "Clock", "Person"]),
  ("meeting", ["People", "Calendar", "Video", "Call"]),
  ("file", ["Document", "File", "Page", "Text"]),
  ("document", ["Document", "Page", "Text", "File"]),
  ("folder", ["Folder", "Archive", "Directory"]),
  ("attachment", ["Attach", "Paperclip", "Link"]),
  ("link", ["Link", "Chain", "Share", "Globe"]),
  ("pdf", ["Document", "DocumentPdf", "File"]),
  ("image", ["Image", "Photo", "Picture", "Camera"]),
  ("photo", ["Image", "Photo", "Camera", "Picture"]),
  ("picture", ["Image", "Photo", "Picture"]),
  ("text", ["Text", "Document", "Font", "Type"]),
  ("page", ["Document", "Page", "File"]),
  ("paper", ["Document", "Page", "File"]),
  ("play", ["Play", "Video", "Media", "Triangle"]),
  ("pause", ["Pause", "Stop"]),
  ("stop", ["Stop", "Pause", "Square"]),
  ("music", ["Music", "Note", "Speaker", "Headphones"]),
  ("audio", ["Speaker", "Volume", "Microphone", "Music"]),
  ("sound", ["Speaker", "Volume", "Music"]),
  ("mute", ["SpeakerMute", "MicOff", "Volume"]),
  ("microphone", ["Mic", "Microphone", "Record"]),
  ("record", ["Record", "Microphone", "Circle"]),
  ("volume", ["Speaker", "Volume", "Sound"]),
  ("speaker", ["Speaker", "Volume", "Sound"]),
  ("headphones", ["Headphones", "Music", "Audio"]),
  ("settings", ["Settings", "Gear", "Cog", "Options", "Wrench"]),
  ("options", ["Settings", "Options", "MoreVertical", "MoreHorizontal"]),
  ("config", ["Settings", "Gear", "Options", "Wrench"]),
  ("preferences", ["Settings", "Options", "Slider"]),
  ("filter", ["Filter", "Funnel", "Sort"]),
  ("sort", ["ArrowSort", "Sort", "Filter", "Reorder"]),
  ("search", ["Search", "Magnify", "Find", "Zoom"]),
  ("find", ["Search", "Find", "Magnify"]),
  ("zoom", ["ZoomIn", "ZoomOut", "Search", "Magnify"]),
  ("button", ["Button", "Square", "Click"]),
  ("toggle", ["Toggle", "Switch", "Slider"]),
  ("switch", ["Toggle", "Switch", "ArrowSwap"]),
  ("slider", ["Slider", "Settings", "Options"]),
  ("dropdown", ["ChevronDown", "CaretDown", "Dropdown"]),
  ("check", ["Checkmark", "Check", "Done", "Accept"]),
  ("checkmark", ["Checkmark", "Done", "Accept"]),
  ("done", ["Checkmark", "Done", "Complete"]),
  ("complete", ["Checkmark", "Done", "Complete"]),
  ("success", ["Checkmark", "CheckCircle", "Done"]),
  ("error", ["Error", "Dismiss", "Warning", "XCircle"]),
  ("fail", ["Error", "Dismiss", "Warning"]),
  ("failure", ["Error", "Dismiss", "Warning"]),
  ("warning", ["Warning", "Alert", "Exclamation"]),
  ("alert", ["Alert", "Warning", "Bell", "Notification"]),
  ("info", ["Info", "Question", "Help"]),
  ("information", ["Info", "Question", "Help"]),
  ("help", ["Question", "Help", "Info", "Support"]),
  ("question", ["Question", "Help", "Info"]),
  ("notification", ["Alert", "Bell", "Notification", "Ring"]),
  ("badge", ["Badge", "Certificate", "Award", "Circle"]),
  ("lock", ["Lock", "Locked", "Key", "Shield", "Secure"]),
  ("unlock", ["LockOpen", "Unlock", "Key"]),
  ("key", ["Key", "Lock", "Password"]),
  ("password", ["Key", "Lock", "Eye", "Password"]),
  ("security", ["Shield", "Lock", "Key", "Secure"]),
  ("shield", ["Shield", "Security", "Protected"]),
  ("protect", ["Shield", "Lock", "Security"]),
  ("safe", ["Shield", "Lock", "Security"]),
  ("private", ["Lock", "Eye", "Shield", "Incognito"]),
  ("cloud", ["Cloud", "Weather", "Sync"]),
  ("sync", ["Sync", "ArrowSync", "Refresh", "Update"]),
  ("refresh", ["ArrowSync", "Refresh", "Reload"]),
  ("reload", ["ArrowSync", "Refresh", "Reload"]),
  ("loading", ["Spinner", "Hourglass", "ArrowSync"]),
  ("wait", ["Spinner", "Hourglass", "Clock"]),
  ("favorite", ["Star", "Heart", "Bookmark", "Pin"]),
  ("star", ["Star", "Sparkle", "Rating"]),
  ("heart", ["Heart", "Like", "Love", "Favorite"]),
  ("like", ["ThumbLike", "Heart", "Star"]),
  ("love", ["Heart", "Like", "Star"]),
  ("dislike", ["ThumbDislike"]),
  ("bookmark", ["Bookmark", "Flag", "Star", "Pin"]),
  ("pin", ["Pin", "Bookmark", "Tack", "Location"]),
  ("flag", ["Flag", "Bookmark", "Alert"]),
  ("rating", ["Star", "ThumbLike", "Heart"]),
  ("grid", ["Grid", "Apps", "Table", "Layout"]),
  ("list", ["List", "TextBullet", "Queue"]),
  ("table", ["Table", "Grid", "Data"]),
  ("expand", ["ChevronDown", "Expand", "Maximize", "FullScreen"]),
  ("collapse", ["ChevronUp", "Collapse", "Minimize"]),
  ("maximize", ["Maximize", "FullScreen", "Expand"]),
  ("minimize", ["Minimize", "Collapse", "WindowMinimize"]),
  ("fullscreen", ["FullScreen", "Maximize", "Expand"]),
  ("layout", ["Layout", "Grid", "Column", "Row"]),
  ("column", ["Column", "Layout", "TextColumn"]),
  ("row", ["Row", "Layout", "Table"]),
  ("view", ["Eye", "View", "Preview", "Visibility"]),
  ("hide", ["EyeOff", "Hide", "Visibility"]),
  ("show", ["Eye", "View", "Visibility"]),
  ("visible", ["Eye", "View", "Visibility"]),
  ("invisible", ["EyeOff", "Hide"]),
  ("wifi", ["Wifi", "Signal", "Network"]),
  ("bluetooth", ["Bluetooth"]),
  ("network", ["Globe", "Network", "Wifi", "Signal"]),
  ("internet", ["Globe", "Earth", "Network", "World"]),
  ("globe", ["Globe", "Earth", "World", "International"]),
  ("web", ["Globe", "World", "Browser"]),
  ("online", ["Globe", "Wifi", "Signal", "Cloud"]),
  ("offline", ["CloudOff", "WifiOff", "Signal"]),
  ("connect", ["Link", "PlugConnected", "Wifi"]),
  ("disconnect", ["Unlink", "PlugDisconnected", "WifiOff"]),
  ("computer", ["Desktop", "Monitor", "Computer", "Laptop"]),
  ("laptop", ["Laptop", "Device"]),
  ("desktop", ["Desktop", "Monitor", "Computer"]),
  ("monitor", ["Desktop", "Monitor", "Screen"]),
  ("screen", ["Desktop", "Monitor", "Screen"]),
  ("smartphone", ["Phone", "Mobile", "Device"]),
  ("mobile", ["Phone", "Mobile", "Device"]),
  ("tablet", ["Tablet", "Device"]),
  ("printer", ["Print", "Printer"]),
  ("print", ["Print", "Printer", "Document"]),
  ("keyboard", ["Keyboard", "Type"]),
  ("mouse", ["Cursor", "Mouse"]),
  ("cart", ["Cart", "Shopping", "Basket"]),
  ("shopping", ["Cart", "Shopping", "Bag"]),
  ("basket", ["Cart", "Shopping", "Basket"]),
  ("money", ["Money", "Currency", "Payment", "Wallet"]),
  ("payment", ["Payment", "CreditCard", "Money", "Wallet"]),
  ("credit", ["CreditCard", "Payment", "Money"]),
  ("wallet", ["Wallet", "Money", "Payment"]),
  ("dollar", ["Money", "Currency", "CurrencyDollar"]),
  ("bank", ["Building", "Money", "Wallet"]),
  ("receipt", ["Receipt", "Document", "Money"]),
  ("weather", ["Weather", "Cloud", "Sun", "Rain"]),
  ("sun", ["Sun", "Brightness", "Weather", "Light"]),
  ("sunny", ["Sun", "Brightness", "Weather"]),
  ("moon", ["Moon", "Dark", "Night", "Sleep"]),
  ("rain", ["Rain", "Weather", "Cloud", "Drop"]),
  ("snow", ["Snow", "Weather", "Cold"]),
  ("temperature", ["Temperature", "Thermometer", "Weather"]),
  ("code", ["Code", "Braces", "Terminal", "Developer"]),
  ("developer", ["Code", "Braces", "Terminal", "Bug"]),
  ("terminal", ["Terminal", "Code", "Console"]),
  ("console", ["Terminal", "Code", "Console"]),
  ("bug", ["Bug", "Error", "Debug"]),
  ("debug", ["Bug", "Code", "Wrench"]),
  ("api", ["Code", "Braces", "PlugConnected"]),
  ("database", ["Database", "Server", "Storage"]),
  ("server", ["Server", "Database", "Cloud"]),
  ("ai", ["Bot", "Brain", "Lightbulb", "Sparkle", "Magic", "Wand"]),
  ("bot", ["Bot", "Chat", "Robot"]),
  ("robot", ["Bot", "BotAdd", "BotSparkle"]),
  ("brain", ["Brain", "Lightbulb", "Book"]),
  ("idea", ["Lightbulb", "Brain", "Sparkle"]),
  ("lightbulb", ["Lightbulb", "Idea", "Tip"]),
  ("smart", ["Lightbulb", "Brain", "Sparkle", "Bot"]),
  ("intelligence", ["Brain", "Bot", "Lightbulb"]),
  ("machine", ["Bot", "Cog", "Settings"]),
  ("learning", ["Book", "Brain", "HatGraduation"]),
  ("wand", ["Wand", "Magic", "Sparkle"]),
  ("science", ["Beaker", "MathFormula", "Brain", "Lightbulb", "Book", "CloudBeaker"]),
  ("lab", ["Beaker", "CloudBeaker", "BeakerSettings"]),
  ("laboratory", ["Beaker", "CloudBeaker", "BeakerSettings"]),
  ("chemistry", ["Beaker", "CloudBeaker"]),
  ("chemical", ["Beaker", "CloudBeaker"]),
  ("experiment", ["Beaker", "Lightbulb", "CloudBeaker"]),
  ("research", ["Beaker", "Search", "Document", "Brain", "Book", "Library"]),
  ("math", ["MathFormula", "Calculator", "Number", "ClipboardMathFormula"]),
  ("mathematics", ["MathFormula", "Calculator", "ClipboardMathFormula"]),
  ("formula", ["MathFormula", "ClipboardMathFormula", "MathFormatLinear"]),
  ("equation", ["MathFormula", "ClipboardMathFormula"]),
  ("beaker", ["Beaker", "CloudBeaker", "BeakerSettings", "BeakerOff"]),
  ("location", ["Location", "Map", "Pin", "Navigation"]),
  ("map", ["Map", "Location", "Globe", "Navigation"]),
  ("gps", ["Location", "Navigation", "Target"]),
  ("navigation", ["Navigation", "Compass", "Map", "Arrow"]),
  ("place", ["Location", "Pin", "Map"]),
  ("address", ["Location", "Home", "Building"]),
  ("compass", ["Compass", "Navigation", "Direction"]),
  ("animal", ["Bug", "Cat", "Dog", "Fish"]),
  ("tree", ["TreeDeciduous", "TreeEvergreen", "Leaf"]),
  ("leaf", ["Leaf", "Tree", "Plant"]),
  ("plant", ["Plant", "Leaf", "Tree"]),
  ("flower", ["Flower", "Plant", "Leaf"]),
  ("earth", ["Globe", "Earth", "World"]),
  ("fire", ["Fire", "Flame", "Hot"]),
  ("water", ["Drop", "Water", "Rain"]),
  ("food", ["Food", "Restaurant", "Bowl", "Pizza", "Apple", "Egg"]),
  ("fruit", ["Apple", "Food", "Leaf"]),
  ("apple", ["Apple", "Food"]),
  ("egg", ["Egg", "Food"]),
  ("pizza", ["Pizza", "Food"]),
  ("drink", ["Drink", "Coffee", "Cup", "DrinkBeer", "DrinkWine"]),
  ("coffee", ["Coffee", "Drink", "Cup"]),
  ("tea", ["Coffee", "Drink", "Cup"]),
  ("restaurant", ["Food", "Restaurant", "Fork"]),
  ("eat", ["Food", "Restaurant", "Bowl"]),
  ("meal", ["Food", "Restaurant", "Bowl"]),
  ("soup", ["Bowl", "Food", "Restaurant", "Drink"]),
  ("wonton", ["Bowl", "Food", "Restaurant"]),
  ("ramen", ["Bowl", "Food", "Restaurant"]),
  ("noodle", ["Bowl", "Food", "Restaurant"]),
  ("pasta", ["Bowl", "Food", "Restaurant"]),
  ("salad", ["Bowl", "Food", "Leaf"]),
  ("cereal", ["Bowl", "Food"]),
  ("rice", ["Bowl", "Food"]),
  ("bowl", ["Bowl", "Food"]),
  ("beer", ["DrinkBeer", "Drink", "Cup"]),
  ("wine", ["DrinkWine", "Drink", "Cup"]),
  ("cocktail", ["DrinkMargarita", "Drink", "Cup"]),
  ("margarita", ["DrinkMargarita", "Drink"]),
  ("juice", ["Drink", "Cup", "Apple"]),
  ("soda", ["Drink", "Cup"]),
  ("beverage", ["Drink", "Coffee", "Cup", "DrinkBeer"]),
  ("cook", ["Food", "Bowl", "Restaurant"]),
  ("cooking", ["Food", "Bowl", "Restaurant"]),
  ("chef", ["Food", "Restaurant", "Hat"]),
  ("kitchen", ["Food", "Restaurant", "Bowl"]),
  ("recipe", ["Food", "Document", "Book"]),
  ("snack", ["Food", "Cookie", "Apple"]),
  ("dessert", ["Food", "Cookie", "Birthday"]),
  ("cake", ["Food", "Birthday"]),
  ("cookie", ["Cookie", "Food"]),
  ("candy", ["Food", "Heart"]),
  ("chocolate", ["Food", "Heart"]),
  ("icecream", ["Food", "Cone"]),
  ("breakfast", ["Food", "Egg", "Coffee", "Bowl"]),
  ("lunch", ["Food", "Restaurant", "Bowl"]),
  ("dinner", ["Food", "Restaurant", "Bowl"]),
  ("brunch", ["Food", "Coffee", "Egg"]),
  ("car", ["Vehicle", "Car", "Automobile"]),
  ("vehicle", ["Vehicle", "Car", "Truck"]),
  ("plane", ["Airplane", "Flight"]),
  ("airplane", ["Airplane", "Flight"]),
  ("flight", ["Airplane", "Flight"]),
  ("train", ["Vehicle", "Subway"]),
  ("bus", ["Vehicle", "Bus"]),
  ("bike", ["Bicycle", "Vehicle"]),
  ("bicycle", ["Bicycle", "Vehicle"]),
  ("tag", ["Tag", "Label", "Hashtag"]),
  ("label", ["Tag", "Label"]),
  ("hashtag", ["Hashtag", "Number", "Tag"]),
  ("gift", ["Gift", "Present", "Box"]),
  ("present", ["Gift", "Present", "Box"]),
  ("box", ["Box", "Package", "Archive", "Cube"]),
  ("package", ["Box", "Package", "Archive"]),
  ("cube", ["Cube", "Box", "3D"]),
  ("clipboard", ["Clipboard", "Paste", "Copy"]),
  ("window", ["Window", "App", "Square"]),
  ("close", ["Dismiss", "Close", "X", "Cancel"]),
  ("cancel", ["Dismiss", "Cancel", "X", "Close"]),
  ("exit", ["SignOut", "Leave", "Dismiss", "Door"]),
  ("logout", ["SignOut", "Leave", "Person"]),
  ("login", ["SignIn", "Enter", "Person"]),
  ("signin", ["SignIn", "Enter", "Person"]),
  ("signout", ["SignOut", "Leave", "Person"]),
  ("share", ["Share", "Send", "Forward", "ArrowExport"]),
  ("open", ["Open", "Launch", "ArrowTopRight", "External"]),
  ("external", ["Open", "Launch", "ArrowTopRight", "LinkSquare"]),
  ("launch", ["Open", "Launch", "Rocket"]),
  ("rocket", ["Rocket", "Launch", "Send"]),
  ("accept", ["Checkmark", "Accept", "Done"]),
  ("reject", ["Dismiss", "Cancel", "X"]),
  ("confirm", ["Checkmark", "Accept", "Done"]),
  ("approve", ["Checkmark", "Accept", "ThumbLike"]),
  ("deny", ["Dismiss", "Cancel", "ThumbDislike"]),
  ("attach", ["Attach", "Paperclip", "Link"]),
  ("detach", ["Unlink", "Dismiss"]),
  ("empty", ["Empty", "Box", "Folder"]),
  ("full", ["Full", "Battery", "Circle"]),
  ("half", ["Half", "Circle"]),
  ("crop", ["Crop", "Image", "Cut"]),
  ("rotate", ["Rotate", "Arrow", "Sync"]),
  ("flip", ["Flip", "Arrow", "Mirror"]),
  ("drag", ["Drag", "Move", "ReOrder"]),
  ("drop", ["Drop", "Drag", "Download"]),
  ("move", ["Move", "Drag", "Arrow"]),
  ("resize", ["Resize", "Expand", "Arrow"]),
  ("more", ["MoreHorizontal", "MoreVertical", "Menu", "Ellipsis"]),
  ("ellipsis", ["MoreHorizontal", "MoreVertical"]),
  ("dots", ["MoreHorizontal", "MoreVertical", "Ellipsis"]),
  ("organization", ["Organization", "Building", "People", "Team"]),
  ("company", ["Building", "Organization", "Briefcase"]),
  ("business", ["Briefcase", "Building", "Money"]),
  ("work", ["Briefcase", "Building", "Document"]),
  ("job", ["Briefcase", "Building", "Document"]),
  ("task", ["Task", "Checkmark", "List", "Clipboard"]),
  ("todo", ["Task", "Checkmark", "List", "Clipboard"]),
  ("checklist", ["Task", "Checkmark", "List"]),
  ("form", ["Form", "Document", "TextBullet"]),
  ("survey", ["Form", "Document", "Checkmark"]),
  ("vote", ["ThumbLike", "Checkmark", "Poll"]),
  ("poll", ["Poll", "Chart", "Data"]),
  ("chart", ["Chart", "Data", "Graph"]),
  ("graph", ["Chart", "Data", "Graph"]),
  ("analytics", ["Chart", "Data", "Graph"]),
  ("report", ["Document", "Chart", "Data"]),
  ("dashboard", ["Grid", "Chart", "Data"]),
  ("widget", ["Square", "App", "Grid"]),
  ("app", ["Apps", "Grid", "Square"]),
  ("application", ["Apps", "Grid", "Window"]),
  ("tool", ["Wrench", "Tool", "Settings"]),
  ("tools", ["Wrench", "Tool", "Toolbox"]),
  ("toolbox", ["Toolbox", "Wrench", "Tool"]),
  ("wrench", ["Wrench", "Tool", "Settings"]),
  ("repair", ["Wrench", "Tool", "Settings"]),
  ("fix", ["Wrench", "Tool", "Bug"]),
  ("build", ["Hammer", "Wrench", "Build"]),
  ("construct", ["Hammer", "Wrench", "Building"])
]

/-- JS object property lookup in `semanticIconMapping` (keys are unique). -/
def smLookup (word : String) : Option (List String) :=
  (semanticIconMapping.find? (fun e => e.1 = word)).map (·.2)

example : smLookup "beer" = some ["DrinkBeer", "Drink", "Cup"] := by decide
example : smLookup "trash" = some ["Delete", "Trash"] := by decide
example : smLookup "bin" = none := by decide

-- ============================================================================
-- Per-icon layer scores and the insertion-ordered score map
-- ============================================================================

/-- The per-icon record tracked in `iconLayerScores`. -/
structure LayerScores where
  substring : ℚ
  fuzzy : ℚ
  semantic : ℚ
  visual : ℚ
  synonym : ℚ
deriving Repr, DecidableEq

/-- The zero record created by `getLayerScores` for a fresh icon. -/
def LayerScores.zero : LayerScores :=
  { substring := 0, fuzzy := 0, semantic := 0, visual := 0, synonym := 0 }

/-- The insertion-ordered `Map<string, {...}>` of per-icon layer scores. -/
abbrev ScoreMap := List (String × LayerScores)

/-- The `getLayerScores` helper plus in-place mutation: apply `f` to `name`'s record,
creating it from zero (at the end of the map, preserving JS `Map` insertion
order) when absent. -/
def updateScores (m : ScoreMap) (name : String) (f : LayerScores → LayerScores) : ScoreMap :=
  match m with
  | [] => [(name, f LayerScores.zero)]
  | (n, s) :: rest =>
    if n = name then (n, f s) :: rest else (n, s) :: updateScores rest name f

/-- Read `name`'s record (zero when absent). -/
def getScores (m : ScoreMap) (name : String) : LayerScores :=
  match m with
  | [] => LayerScores.zero
  | (n, s) :: rest => if n = name then s else getScores rest name

-- ============================================================================
-- The search environment (collaborators and generated artifacts)
-- ============================================================================

/-- External collaborators and generated data consumed by `searchIcons`,
already specialised to the caller's `threshold`:
* `catalog` — the generated `FLUENT_ICON_NAMES` list;
* `iconFuse q` — the full sorted match list of the Fuse instance built by
  `createIconFuse(threshold)` for pattern `q` (pairs of item and Fuse score,
  0 = perfect … 1 = worst; `search(q, {limit})` is `(iconFuse q).take limit`);
* `semanticFuse w` — ditto for `createSemanticFuse(threshold)` over the
  semantic keys;
* `tagFuse w` — ditto for the per-word `new Fuse(TAG_DICTIONARY, ...)`;
* `tagDict` / `visualTags` — the generated `TAG_DICTIONARY` and
  `ICON_VISUAL_TAGS` (base name ↦ tag indices, object insertion order);
* `synonyms w` — the settled result of `await getSynonyms(w)`;
* `iconSizes n` — the generated `getIconSizes` table. -/
structure SearchEnv where
  catalog : List String
  iconFuse : String → List (IconSearchItem × ℚ)
  semanticFuse : String → List (String × ℚ)
  tagFuse : String → List (String × ℚ)
  tagDict : List String
  visualTags : List (String × List Nat)
  synonyms : String → List String
  iconSizes : String → List String

-- ============================================================================
-- Layer 0: direct substring matching
-- ============================================================================

/-- One iteration of Layer 0's `for (const item of iconSearchItems)`. -/
def layer0Step (queryWords : List String) (m : ScoreMap) (item : IconSearchItem) : ScoreMap :=
  let rawScore := getSubstringMatchScore item.name queryWords
  if 0 < rawScore then
    let substringScore : ℚ := if 350 ≤ rawScore then 100 else 15
    updateScores m item.name fun s => { s with substring := max s.substring substringScore }
  else m

/-- Layer 0 of `searchIcons` (exact word = 100 pts, partial = 15 pts). -/
def layer0 (items : List IconSearchItem) (queryWords : List String) (m : ScoreMap) : ScoreMap :=
  items.foldl (layer0Step queryWords) m

-- ============================================================================
-- Layer 1: fuzzy name matching
-- ============================================================================

/-- One iteration of Layer 1's loop over `iconFuse.search(queryLower, ...)`. -/
def layer1Step (m : ScoreMap) (r : IconSearchItem × ℚ) : ScoreMap :=
  updateScores m r.1.name fun s => { s with fuzzy := max s.fuzzy ((1 - r.2) * 15) }

/-- Layer 1 of `searchIcons`: `iconFuse.search(queryLower, { limit: maxResults * 3 })`,
each match contributing `(1 - score) * 15`. -/
def layer1 (env : SearchEnv) (queryLower : String) (maxResults : Nat) (m : ScoreMap) : ScoreMap :=
  ((env.iconFuse queryLower).take (maxResults * 3)).foldl layer1Step m

-- ============================================================================
-- Layer 2: semantic / intent-based matching
-- ============================================================================

/-- Layer 2a inner loop: `iconFuse.search(pattern, { limit: 10 })`, scoring
`25 * (1 - score)` only when the pattern is a complete PascalCase word. -/
def layer2aPattern (env : SearchEnv) (m : ScoreMap) (pattern : String) : ScoreMap :=
  ((env.iconFuse pattern).take 10).foldl
    (fun m r =>
      if containsPascalWord r.1.name pattern then
        updateScores m r.1.name fun s => { s with semantic := max s.semantic (25 * (1 - r.2)) }
      else m) m

/-- Layer 2b inner loop over one fuzzily matched semantic key `km`:
`iconFuse.search(pattern, { limit: 8 })` with the double penalty
`18 * (1 - score) * (1 - keyScore)`, same complete-word guard. -/
def layer2bPattern (env : SearchEnv) (keyScore : ℚ) (m : ScoreMap) (pattern : String) : ScoreMap :=
  ((env.iconFuse pattern).take 8).foldl
    (fun m r =>
      if containsPascalWord r.1.name pattern then
        updateScores m r.1.name fun s =>
          { s with semantic := max s.semantic (18 * (1 - r.2) * (1 - keyScore)) }
      else m) m

/-- One iteration of Layer 2's `for (const word of queryWords)`:
2a = direct key lookup, 2b = `semanticFuse.search(word, { limit: 5 })`. -/
def layer2Word (env : SearchEnv) (m : ScoreMap) (word : String) : ScoreMap :=
  let m2a :=
    match smLookup word with
    | some patterns => patterns.foldl (layer2aPattern env) m
    | none => m
  ((env.semanticFuse word).take 5).foldl
    (fun m km =>
      match smLookup km.1 with
      | some patterns => patterns.foldl (layer2bPattern env km.2) m
      | none => m) m2a

/-- Layer 2 of `searchIcons` (max 25 pts). -/
def layer2 (env : SearchEnv) (queryWords : List String) (m : ScoreMap) : ScoreMap :=
  queryWords.foldl (layer2Word env) m

-- ============================================================================
-- Layer 3: synonym expansion
-- ============================================================================

/-- Layer 3a inner loop: synonym→semantic-key bridge,
`iconFuse.search(pattern, { limit: 8 })`, scoring `20 * (1 - score)`
(note: the source has no `containsPascalWord` guard here). -/
def layer3aPattern (env : SearchEnv) (m : ScoreMap) (pattern : String) : ScoreMap :=
  ((env.iconFuse pattern).take 8).foldl
    (fun m r =>
      updateScores m r.1.name fun s => { s with synonym := max s.synonym (20 * (1 - r.2)) }) m

/-- One iteration over a synonym: 3a bridge (when the synonym is a semantic
key) then 3b direct match `iconFuse.search(synonym, { limit: 5 })` at
`14 * (1 - score)`. -/
def layer3Synonym (env : SearchEnv) (m : ScoreMap) (synonym : String) : ScoreMap :=
  let m3a :=
    match smLookup synonym with
    | some patterns => patterns.foldl (layer3aPattern env) m
    | none => m
  ((env.iconFuse synonym).take 5).foldl
    (fun m r =>
      updateScores m r.1.name fun s => { s with synonym := max s.synonym (14 * (1 - r.2)) }) m3a

/-- Layer 3 of `searchIcons` (max 20 pts), with the per-word synonym lists
already settled (`await getSynonyms(word)`). -/
def layer3 (env : SearchEnv) (queryWords : List String) (m : ScoreMap) : ScoreMap :=
  queryWords.foldl (fun m word => (env.synonyms word).foldl (layer3Synonym env) m) m

-- ============================================================================
-- Layer 4: visual tag matching
-- ============================================================================

/-- Award `points` to `baseName + variant` for `variant ∈ ["Regular","Filled"]`
when that icon exists in the catalog. -/
def layer4Award (env : SearchEnv) (points : ℚ) (m : ScoreMap) (baseName : String) : ScoreMap :=
  (["Regular", "Filled"]).foldl
    (fun m variant =>
      let iconName := baseName ++ variant
      if env.catalog.contains iconName then
        updateScores m iconName fun s => { s with visual := max s.visual points }
      else m) m

/-- Pass over all `ICON_VISUAL_TAGS` entries carrying `tagIndex`. -/
def layer4Tag (env : SearchEnv) (tagIndex : Nat) (points : ℚ) (m : ScoreMap) : ScoreMap :=
  env.visualTags.foldl
    (fun m bt => if tagIndex ∈ bt.2 then layer4Award env points m bt.1 else m) m

/-- One iteration of Layer 4's `for (const word of queryWords)`:
4a = exact tag (25 pts), 4b = fuzzy tags `tagFuse.search(word, { limit: 3 })`
at `18 * (1 - score)`. -/
def layer4Word (env : SearchEnv) (m : ScoreMap) (word : String) : ScoreMap :=
  let m4a :=
    match listIndexOf env.tagDict word with
    | some tagIndex => layer4Tag env tagIndex 25 m
    | none => m
  ((env.tagFuse word).take 3).foldl
    (fun m tm =>
      match listIndexOf env.tagDict tm.1 with
      | some matchedTagIndex => layer4Tag env matchedTagIndex (18 * (1 - tm.2)) m
      | none => m) m4a

/-- Layer 4 of `searchIcons` (max 25 pts). -/
def layer4 (env : SearchEnv) (queryWords : List String) (m : ScoreMap) : ScoreMap :=
  queryWords.foldl (layer4Word env) m

-- ============================================================================
-- Aggregation, ranking, and result construction
-- ============================================================================

/-- Sum of an icon's five layer scores (line `layers.substring + layers.fuzzy
+ layers.semantic + layers.visual + layers.synonym`). -/
def LayerScores.total (s : LayerScores) : ℚ :=
  s.substring + s.fuzzy + s.semantic + s.visual + s.synonym

/-- An element of `finalScores`: `[iconName, totalScore, layers]`. -/
structure ScoredIcon where
  name : String
  total : ℚ
  layers : LayerScores
deriving Repr, DecidableEq

/-- The `finalScores` accumulation: per map entry (in insertion order), clamp
the layer sum at 100 and keep only entries with positive total. -/
def computeFinalScores (m : ScoreMap) : List ScoredIcon :=
  m.filterMap fun e =>
    let totalScore := min 100 e.2.total
    if 0 < totalScore then some { name := e.1, total := totalScore, layers := e.2 } else none

/-- The `aRegular` / `bRegular` tie-break value of the sort comparator:
1 for names ending in "Regular", else 0. -/
def regRank (a : ScoredIcon) : ℚ := if jsEndsWith a.name "Regular" then 1 else 0

/-- The JS comparator passed to `finalScores.sort`: descending total, then
Regular variants (`name.endsWith("Regular")`) first. -/
def jsComparator (a b : ScoredIcon) : ℚ :=
  if b.total ≠ a.total then b.total - a.total
  else regRank b - regRank a

/-- Element `a` may precede `b` in the sorted output iff the comparator is ≤ 0. -/
def resultLE (a b : ScoredIcon) : Bool := jsComparator a b ≤ 0

/-- Stable insertion of `x` into an already sorted list: `x` is placed after
every element `y` with `le y x` (so equal-ranked earlier elements stay
first). -/
def sortInsert (le : ScoredIcon → ScoredIcon → Bool) (x : ScoredIcon) :
    List ScoredIcon → List ScoredIcon
  | [] => [x]
  | y :: ys => if le y x then y :: sortInsert le x ys else x :: y :: ys

/-- The call `finalScores.sort(comparator)` — JS `Array.prototype.sort` is a stable
sort consistent with the comparator; for a consistent comparator (and
`jsComparator` is one: `resultLE` is total and transitive) the output is the
unique stable sorted permutation of the input, computed here by a stable
insertion sort (structurally recursive, hence evaluable). -/
def sortFinalScores (l : List ScoredIcon) : List ScoredIcon :=
  l.foldl (fun acc x => sortInsert resultLE x acc) []

/-- The five query-normalisation and scoring stages of `searchIcons`,
producing the final `iconLayerScores` map. -/
def searchIconsMap (env : SearchEnv) (query : String) (maxResults : Nat) : ScoreMap :=
  let queryLower := jsTrim (jsLowerStr query)
  let queryWords := splitQueryWords queryLower
  let m0 := layer0 (iconItems env.catalog) queryWords []
  let m1 := layer1 env queryLower maxResults m0
  let m2 := layer2 env queryWords m1
  let m3 := layer3 env queryWords m2
  layer4 env queryWords m3

/-- The `topResults` list: the sorted, truncated scored list returned by the ranking
core before presentation formatting. -/
def searchIconsScored (env : SearchEnv) (query : String) (maxResults : Nat) : List ScoredIcon :=
  (sortFinalScores (computeFinalScores (searchIconsMap env query maxResults))).take maxResults

/-- The `scoreLayer` enumeration of `IconResult`. -/
inductive ScoreLayer where
  | exact | substring | fuzzy | semantic | visual | wordnet
deriving Repr, DecidableEq

/-- JS `Math.round` (half-up, toward +∞). -/
def jsRound (q : ℚ) : ℤ := ⌊q + 1 / 2⌋

/-- The `primaryLayer` computation: `exact` when the substring layer reached
100, otherwise the reduce over the five contributions keeping the earlier
layer on ties (`a.score >= b.score ? a : b`). -/
def primaryLayer (layers : LayerScores) : ScoreLayer :=
  if 100 ≤ layers.substring then ScoreLayer.exact
  else
    let contributions : List (ScoreLayer × ℚ) :=
      [(ScoreLayer.substring, layers.substring), (ScoreLayer.fuzzy, layers.fuzzy),
       (ScoreLayer.semantic, layers.semantic), (ScoreLayer.visual, layers.visual),
       (ScoreLayer.wordnet, layers.synonym)]
    (contributions.foldl
      (fun a b => if b.2 ≤ a.2 then a else b)
      (ScoreLayer.substring, layers.substring)).1

/-- Structure `IconResult` as returned by `searchIcons`. -/
structure IconResult where
  name : String
  jsxElement : String
  importStatement : String
  category : String
  availableSizes : List String
  score : ℤ
  scoreLayer : ScoreLayer
  breakdownSubstring : ℤ
  breakdownFuzzy : ℤ
  breakdownSemantic : ℤ
  breakdownVisual : ℤ
  breakdownSynonym : ℤ
deriving Repr, DecidableEq

/-- The final `topResults.map(...)` of `searchIcons`, building the JSX
element string, the import statement string, the category, the sizes, the
rounded score, the primary layer and the rounded breakdown. -/
def toIconResult (env : SearchEnv) (r : ScoredIcon) : IconResult :=
  let p := parseIconName r.name
  { name := r.name
    jsxElement := "<" ++ r.name ++ " />"
    importStatement := "import \x7b " ++ r.name ++ " \x7d from \"@fluentui/react-icons\";"
    category := if p.2 = "" then "Icon" else p.2
    availableSizes := env.iconSizes r.name
    score := jsRound r.total
    scoreLayer := primaryLayer r.layers
    breakdownSubstring := jsRound r.layers.substring
    breakdownFuzzy := jsRound r.layers.fuzzy
    breakdownSemantic := jsRound r.layers.semantic
    breakdownVisual := jsRound r.layers.visual
    breakdownSynonym := jsRound r.layers.synonym }

/-- Function `searchIcons` from iconSearchService.ts (the synonym lookups settled via
`env.synonyms`, debug logging omitted as behaviour-free). -/
def searchIcons (env : SearchEnv) (query : String) (maxResults : Nat) : List IconResult :=
  (searchIconsScored env query maxResults).map (toIconResult env)

-- ============================================================================
-- getSynonyms and the synonym cache  (iconSearchService.ts, getSynonyms)
-- ============================================================================

/-- The two synonym providers:
* `synLib w` — the `synonyms` package: `none` when it returns `undefined`
  or throws, otherwise the array-valued part-of-speech groups of its result;
* `wordnetLookup w` — the synonym lists (`result.synonyms`) of the synsets
  delivered to the `wordnet.lookup` callback. -/
structure SynonymEnv where
  synLib : String → Option (List (List String))
  wordnetLookup : String → List (List String)

/-- The `synonymCache` JS `Map` (insertion-ordered association list). -/
abbrev SynCache := List (String × List String)

/-- The lookup `synonymCache.get word` (`none` for `undefined`). -/
def cacheGet (cache : SynCache) (word : String) : Option (List String) :=
  ((cache : List (String × List String)).find? (fun e => e.1 = word)).map (·.2)

/-- JS `Set`-like insert: append if not already present (insertion order). -/
def insertOnce (acc : List String) (x : String) : List String :=
  if x ∈ acc then acc else acc ++ [x]

/-- The cleanup `syn.toLowerCase().replace(/[_\s]/g, "")`. -/
def cleanSynonym (syn : String) : String :=
  String.mk ((syn.data.map jsLower).filter fun c => ¬(c = '_' ∨ isJsSpace c))

/-- Tier 1 of `getSynonyms`: collect cleaned synonyms from the `synonyms`
package result, skipping the word itself and strings shorter than 3. -/
def tier1Synonyms (synResult : List (List String)) (word : String) : List String :=
  synResult.foldl
    (fun acc posSynonyms =>
      posSynonyms.foldl
        (fun acc syn =>
          let clean := cleanSynonym syn
          if clean ≠ word ∧ 3 ≤ clean.data.length then insertOnce acc clean else acc)
        acc)
    []

/-- Tier 2 of `getSynonyms`: WordNet synsets, splitting compounds on `_`. -/
def tier2Synonyms (results : List (List String)) (word : String) : List String :=
  results.foldl
    (fun acc synonyms =>
      synonyms.foldl
        (fun acc synonym =>
          ((jsLowerStr synonym).splitOn "_").foldl
            (fun acc part =>
              if part ≠ word ∧ 3 ≤ part.data.length then insertOnce acc part else acc)
            acc)
        acc)
    []

/-- Function `getSynonyms` from iconSearchService.ts, as a sequential state-passing
function on the cache: cache hit returns the cached list unchanged; otherwise
tier 1 (limit 10) or, when tier 1 is empty, tier 2 (limit 15) computes the
list, which is stored before returning. -/
def getSynonymsModel (env : SynonymEnv) (cache : SynCache) (word : String) :
    List String × SynCache :=
  match cacheGet cache word with
  | some cached => (cached, cache)
  | none =>
    let allSynonyms :=
      match env.synLib word with
      | some synResult => tier1Synonyms synResult word
      | none => []
    if allSynonyms.isEmpty then
      let limited := (tier2Synonyms (env.wordnetLookup word) word).take 15
      (limited, (cache : List (String × List String)) ++ [(word, limited)])
    else
      let limited := allSynonyms.take 10
      (limited, (cache : List (String × List String)) ++ [(word, limited)])

-- ============================================================================
-- server.ts: tool input schema and handler
-- ============================================================================

/-- The `search-fluentui-icons` zod `inputSchema` of server.ts:
`query: z.string().max(500)`, `maxResults: z.number().optional().default(20)`,
`threshold: z.number().optional().default(0.1)`.  The only constraint on a
well-typed call is the 500-character bound on `query`; `maxResults` and
`threshold` accept any number. -/
def inputSchemaAccepts (query : String) (_maxResults : ℚ) (_threshold : ℚ) : Bool :=
  query.data.length ≤ 500

/-- A tool handler response (`CallToolResult`): its text and whether
`isError: true` was set. -/
structure ToolResponse where
  text : String
  isError : Bool
deriving Repr, DecidableEq

/-- The `search-fluentui-icons` handler body of server.ts: it always delegates
to `searchIcons` and wraps the outcome in a success response — the "No icons
found" branch is a plain (non-error) content message (the `catch` branch
concerns thrown exceptions, which the pure embedding has none of). -/
def searchToolHandler (env : SearchEnv) (query : String) (maxResults : Nat) : ToolResponse :=
  let results := searchIcons env query maxResults
  if results.isEmpty then
    { text := "No icons found matching \"" ++ query ++ "\". Try a different search term."
      isError := false }
  else
    { text := "Found " ++ toString results.length ++ " icons matching \"" ++ query ++ "\":"
      isError := false }

-- ============================================================================
-- Helper lemmas: the score map
-- ============================================================================

theorem getScores_updateScores_self (m : ScoreMap) (n : String) (f : LayerScores → LayerScores) :
    getScores (updateScores m n f) n = f (getScores m n) := by
  induction m with
  | nil => simp [updateScores, getScores]
  | cons e rest ih =>
    obtain ⟨k, s⟩ := e
    by_cases hk : k = n
    · subst hk; simp [updateScores, getScores]
    · simp [updateScores, getScores, hk, ih]

theorem getScores_updateScores_ne (m : ScoreMap) (n n' : String) (f : LayerScores → LayerScores)
    (h : n' ≠ n) : getScores (updateScores m n f) n' = getScores m n' := by
  induction m with
  | nil => simp [updateScores, getScores, Ne.symm h]
  | cons e rest ih =>
    obtain ⟨k, s⟩ := e
    by_cases hk : k = n
    · subst hk
      simp [updateScores, getScores, Ne.symm h]
    · by_cases hk' : k = n'
      · subst hk'; simp [updateScores, getScores, hk]
      · simp [updateScores, getScores, hk, hk', ih]

/-- Reading `getScores` after an update, both cases at once. -/
theorem getScores_updateScores (m : ScoreMap) (n n' : String) (f : LayerScores → LayerScores) :
    getScores (updateScores m n f) n' =
      if n' = n then f (getScores m n) else getScores m n' := by
  by_cases h : n' = n
  · subst h; simp [getScores_updateScores_self]
  · simp [h, getScores_updateScores_ne m n n' f h]

-- ============================================================================
-- Helper lemmas: generic fold preservation
-- ============================================================================

/-- A predicate preserved by every step is preserved by the fold. -/
theorem foldl_preserves {α : Type} (P : ScoreMap → Prop) (step : ScoreMap → α → ScoreMap)
    (h : ∀ m x, P m → P (step m x)) :
    ∀ (l : List α) (m : ScoreMap), P m → P (l.foldl step m) := by
  intro l
  induction l with
  | nil => intro m hm; exact hm
  | cons x xs ih => intro m hm; exact ih _ (h m x hm)

/-- A field reader `g` left unchanged by every step is unchanged by the fold. -/
theorem foldl_field_eq {α : Type} (g : LayerScores → ℚ) (step : ScoreMap → α → ScoreMap)
    (h : ∀ m x n, g (getScores (step m x) n) = g (getScores m n)) :
    ∀ (l : List α) (m : ScoreMap) (n : String),
      g (getScores (l.foldl step m) n) = g (getScores m n) := by
  intro l
  induction l with
  | nil => intro m n; rfl
  | cons x xs ih => intro m n; rw [List.foldl_cons, ih, h]

/-- A field reader `g` that never decreases at any step never decreases
across the fold. -/
theorem foldl_field_mono {α : Type} (g : LayerScores → ℚ) (step : ScoreMap → α → ScoreMap)
    (h : ∀ m x n, g (getScores m n) ≤ g (getScores (step m x) n)) :
    ∀ (l : List α) (m : ScoreMap) (n : String),
      g (getScores m n) ≤ g (getScores (l.foldl step m) n) := by
  intro l
  induction l with
  | nil => intro m n; exact le_refl _
  | cons x xs ih => intro m n; exact le_trans (h m x n) (ih _ n)

/-- An update whose function leaves `g` unchanged leaves `g` unchanged
everywhere. -/
theorem update_field_eq (g : LayerScores → ℚ) (f : LayerScores → LayerScores)
    (hf : ∀ s, g (f s) = g s) (m : ScoreMap) (n n' : String) :
    g (getScores (updateScores m n f) n') = g (getScores m n') := by
  rw [getScores_updateScores]
  by_cases h : n' = n
  · simp [h, hf]
  · simp [h]

/-- An update whose function never decreases `g` never decreases `g`. -/
theorem update_field_mono (g : LayerScores → ℚ) (f : LayerScores → LayerScores)
    (hf : ∀ s, g s ≤ g (f s)) (m : ScoreMap) (n n' : String) :
    g (getScores m n') ≤ g (getScores (updateScores m n f) n') := by
  rw [getScores_updateScores]
  by_cases h : n' = n
  · simp only [h, if_pos rfl]; exact hf _
  · simp [h]

-- ============================================================================
-- Helper lemmas: which fields each layer can touch
-- ============================================================================

theorem layer0_field_eq (g : LayerScores → ℚ)
    (hg : ∀ s v, g { s with substring := v } = g s)
    (qw : List String) (items : List IconSearchItem) (m : ScoreMap) (n : String) :
    g (getScores (layer0 items qw m) n) = g (getScores m n) := by
  unfold layer0
  refine foldl_field_eq g _ (fun m x n => ?_) _ m n
  unfold layer0Step
  dsimp only
  split
  · exact update_field_eq g _ (fun s => hg s _) m _ n
  · rfl

theorem layer1_field_eq (g : LayerScores → ℚ)
    (hg : ∀ s v, g { s with fuzzy := v } = g s)
    (env : SearchEnv) (ql : String) (mr : Nat) (m : ScoreMap) (n : String) :
    g (getScores (layer1 env ql mr m) n) = g (getScores m n) := by
  unfold layer1
  refine foldl_field_eq g _ (fun m r n => ?_) _ m n
  exact update_field_eq g _ (fun s => hg s _) m _ n

theorem layer2aPattern_field_eq (g : LayerScores → ℚ)
    (hg : ∀ s v, g { s with semantic := v } = g s)
    (env : SearchEnv) (p : String) (m : ScoreMap) (n : String) :
    g (getScores (layer2aPattern env m p) n) = g (getScores m n) := by
  unfold layer2aPattern
  refine foldl_field_eq g _ (fun m r n => ?_) _ m n
  dsimp only
  split
  · exact update_field_eq g _ (fun s => hg s _) m _ n
  · rfl

theorem layer2bPattern_field_eq (g : LayerScores → ℚ)
    (hg : ∀ s v, g { s with semantic := v } = g s)
    (env : SearchEnv) (ks : ℚ) (p : String) (m : ScoreMap) (n : String) :
    g (getScores (layer2bPattern env ks m p) n) = g (getScores m n) := by
  unfold layer2bPattern
  refine foldl_field_eq g _ (fun m r n => ?_) _ m n
  dsimp only
  split
  · exact update_field_eq g _ (fun s => hg s _) m _ n
  · rfl

theorem layer2Word_field_eq (g : LayerScores → ℚ)
    (hg : ∀ s v, g { s with semantic := v } = g s)
    (env : SearchEnv) (w : String) (m : ScoreMap) (n : String) :
    g (getScores (layer2Word env m w) n) = g (getScores m n) := by
  unfold layer2Word
  have houter :
      g (getScores (((env.semanticFuse w).take 5).foldl
        (fun m km =>
          match smLookup km.1 with
          | some patterns => patterns.foldl (layer2bPattern env km.2) m
          | none => m)
        (match smLookup w with
         | some patterns => patterns.foldl (layer2aPattern env) m
         | none => m)) n) =
      g (getScores (match smLookup w with
         | some patterns => patterns.foldl (layer2aPattern env) m
         | none => m) n) := by
    refine foldl_field_eq g _ (fun m km n => ?_) _ _ n
    rcases smLookup km.1 with _ | pats
    · rfl
    · exact foldl_field_eq g _ (fun m p n => layer2bPattern_field_eq g hg env km.2 p m n) pats m n
  rw [houter]
  rcases smLookup w with _ | pats
  · rfl
  · exact foldl_field_eq g _ (fun m p n => layer2aPattern_field_eq g hg env p m n) pats m n

theorem layer2_field_eq (g : LayerScores → ℚ)
    (hg : ∀ s v, g { s with semantic := v } = g s)
    (env : SearchEnv) (qw : List String) (m : ScoreMap) (n : String) :
    g (getScores (layer2 env qw m) n) = g (getScores m n) := by
  unfold layer2
  exact foldl_field_eq g _ (fun m w n => layer2Word_field_eq g hg env w m n) qw m n

theorem layer3aPattern_field_eq (g : LayerScores → ℚ)
    (hg : ∀ s v, g { s with synonym := v } = g s)
    (env : SearchEnv) (p : String) (m : ScoreMap) (n : String) :
    g (getScores (layer3aPattern env m p) n) = g (getScores m n) := by
  unfold layer3aPattern
  refine foldl_field_eq g _ (fun m r n => ?_) _ m n
  exact update_field_eq g _ (fun s => hg s _) m _ n

theorem layer3Synonym_field_eq (g : LayerScores → ℚ)
    (hg : ∀ s v, g { s with synonym := v } = g s)
    (env : SearchEnv) (syn : String) (m : ScoreMap) (n : String) :
    g (getScores (layer3Synonym env m syn) n) = g (getScores m n) := by
  unfold layer3Synonym
  have houter :
      g (getScores (((env.iconFuse syn).take 5).foldl
        (fun m r =>
          updateScores m r.1.name fun s => { s with synonym := max s.synonym (14 * (1 - r.2)) })
        (match smLookup syn with
         | some patterns => patterns.foldl (layer3aPattern env) m
         | none => m)) n) =
      g (getScores (match smLookup syn with
         | some patterns => patterns.foldl (layer3aPattern env) m
         | none => m) n) := by
    refine foldl_field_eq g _ (fun m r n => ?_) _ _ n
    exact update_field_eq g _ (fun s => hg s _) m _ n
  rw [houter]
  rcases smLookup syn with _ | pats
  · rfl
  · exact foldl_field_eq g _ (fun m p n => layer3aPattern_field_eq g hg env p m n) pats m n

theorem layer3_field_eq (g : LayerScores → ℚ)
    (hg : ∀ s v, g { s with synonym := v } = g s)
    (env : SearchEnv) (qw : List String) (m : ScoreMap) (n : String) :
    g (getScores (layer3 env qw m) n) = g (getScores m n) := by
  unfold layer3
  refine foldl_field_eq g _ (fun m w n => ?_) qw m n
  exact foldl_field_eq g _ (fun m syn n => layer3Synonym_field_eq g hg env syn m n) _ m n

theorem layer4Award_field_eq (g : LayerScores → ℚ)
    (hg : ∀ s v, g { s with visual := v } = g s)
    (env : SearchEnv) (pts : ℚ) (b : String) (m : ScoreMap) (n : String) :
    g (getScores (layer4Award env pts m b) n) = g (getScores m n) := by
  unfold layer4Award
  refine foldl_field_eq g _ (fun m v n => ?_) _ m n
  dsimp only
  split
  · exact update_field_eq g _ (fun s => hg s _) m _ n
  · rfl

theorem layer4Tag_field_eq (g : LayerScores → ℚ)
    (hg : ∀ s v, g { s with visual := v } = g s)
    (env : SearchEnv) (ti : Nat) (pts : ℚ) (m : ScoreMap) (n : String) :
    g (getScores (layer4Tag env ti pts m) n) = g (getScores m n) := by
  unfold layer4Tag
  refine foldl_field_eq g _ (fun m bt n => ?_) _ m n
  dsimp only
  split
  · exact layer4Award_field_eq g hg env pts bt.1 m n
  · rfl

theorem layer4Word_field_eq (g : LayerScores → ℚ)
    (hg : ∀ s v, g { s with visual := v } = g s)
    (env : SearchEnv) (w : String) (m : ScoreMap) (n : String) :
    g (getScores (layer4Word env m w) n) = g (getScores m n) := by
  unfold layer4Word
  have houter :
      g (getScores (((env.tagFuse w).take 3).foldl
        (fun m tm =>
          match listIndexOf env.tagDict tm.1 with
          | some matchedTagIndex => layer4Tag env matchedTagIndex (18 * (1 - tm.2)) m
          | none => m)
        (match listIndexOf env.tagDict w with
         | some tagIndex => layer4Tag env tagIndex 25 m
         | none => m)) n) =
      g (getScores (match listIndexOf env.tagDict w with
         | some tagIndex => layer4Tag env tagIndex 25 m
         | none => m) n) := by
    refine foldl_field_eq g _ (fun m tm n => ?_) _ _ n
    rcases listIndexOf env.tagDict tm.1 with _ | mi
    · rfl
    · exact layer4Tag_field_eq g hg env mi _ m n
  rw [houter]
  rcases listIndexOf env.tagDict w with _ | ti
  · rfl
  · exact layer4Tag_field_eq g hg env ti 25 m n

theorem layer4_field_eq (g : LayerScores → ℚ)
    (hg : ∀ s v, g { s with visual := v } = g s)
    (env : SearchEnv) (qw : List String) (m : ScoreMap) (n : String) :
    g (getScores (layer4 env qw m) n) = g (getScores m n) := by
  unfold layer4
  exact foldl_field_eq g _ (fun m w n => layer4Word_field_eq g hg env w m n) qw m n

-- ============================================================================
-- Helper lemmas: nonnegativity of all layer scores
-- ============================================================================

/-- All five fields are nonnegative. -/
def NonnegS (s : LayerScores) : Prop :=
  0 ≤ s.substring ∧ 0 ≤ s.fuzzy ∧ 0 ≤ s.semantic ∧ 0 ≤ s.visual ∧ 0 ≤ s.synonym

theorem nonnegS_zero : NonnegS LayerScores.zero := by
  refine ⟨le_refl 0, le_refl 0, le_refl 0, le_refl 0, le_refl 0⟩

theorem nonnegS_max_substring (s : LayerScores) (c : ℚ) (h : NonnegS s) :
    NonnegS { s with substring := max s.substring c } :=
  ⟨le_trans h.1 (le_max_left _ _), h.2.1, h.2.2.1, h.2.2.2.1, h.2.2.2.2⟩

theorem nonnegS_max_fuzzy (s : LayerScores) (c : ℚ) (h : NonnegS s) :
    NonnegS { s with fuzzy := max s.fuzzy c } :=
  ⟨h.1, le_trans h.2.1 (le_max_left _ _), h.2.2.1, h.2.2.2.1, h.2.2.2.2⟩

theorem nonnegS_max_semantic (s : LayerScores) (c : ℚ) (h : NonnegS s) :
    NonnegS { s with semantic := max s.semantic c } :=
  ⟨h.1, h.2.1, le_trans h.2.2.1 (le_max_left _ _), h.2.2.2.1, h.2.2.2.2⟩

theorem nonnegS_max_visual (s : LayerScores) (c : ℚ) (h : NonnegS s) :
    NonnegS { s with visual := max s.visual c } :=
  ⟨h.1, h.2.1, h.2.2.1, le_trans h.2.2.2.1 (le_max_left _ _), h.2.2.2.2⟩

theorem nonnegS_max_synonym (s : LayerScores) (c : ℚ) (h : NonnegS s) :
    NonnegS { s with synonym := max s.synonym c } :=
  ⟨h.1, h.2.1, h.2.2.1, h.2.2.2.1, le_trans h.2.2.2.2 (le_max_left _ _)⟩

/-- Every record stored in the map is nonnegative. -/
abbrev EntriesNonneg (m : ScoreMap) : Prop := ∀ e ∈ m, NonnegS e.2

theorem entriesNonneg_nil : EntriesNonneg [] := by intro e he; cases he

theorem entriesNonneg_getScores (m : ScoreMap) (h : EntriesNonneg m) (n : String) :
    NonnegS (getScores m n) := by
  induction m with
  | nil => exact nonnegS_zero
  | cons e rest ih =>
    obtain ⟨k, s⟩ := e
    unfold getScores
    by_cases hk : k = n
    · simpa [hk] using h (k, s) (List.mem_cons_self _ _)
    · simp only [hk, if_false]
      exact ih fun e he => h e (List.mem_cons_of_mem _ he)

theorem updateScores_nonneg (m : ScoreMap) (n : String) (f : LayerScores → LayerScores)
    (hf : ∀ s, NonnegS s → NonnegS (f s)) (h : EntriesNonneg m) :
    EntriesNonneg (updateScores m n f) := by
  induction m with
  | nil =>
    intro e he
    simp only [updateScores, List.mem_singleton] at he
    subst he
    exact hf _ nonnegS_zero
  | cons e0 rest ih =>
    obtain ⟨k, s⟩ := e0
    unfold updateScores
    by_cases hk : k = n
    · subst hk
      simp only [if_pos rfl]
      intro e he
      rcases List.mem_cons.mp he with h1 | h2
      · subst h1; exact hf _ (h (k, s) (List.mem_cons_self _ _))
      · exact h e (List.mem_cons_of_mem _ h2)
    · simp only [hk, if_false]
      intro e he
      rcases List.mem_cons.mp he with h1 | h2
      · subst h1; exact h (k, s) (List.mem_cons_self _ _)
      · exact ih (fun e he => h e (List.mem_cons_of_mem _ he)) e h2

theorem layer0_nonneg (qw : List String) (items : List IconSearchItem) (m : ScoreMap)
    (h : EntriesNonneg m) : EntriesNonneg (layer0 items qw m) := by
  unfold layer0
  refine foldl_preserves EntriesNonneg _ (fun m x hm => ?_) _ m h
  unfold layer0Step
  dsimp only
  split
  · exact updateScores_nonneg _ _ _ (fun s hs => nonnegS_max_substring s _ hs) hm
  · exact hm

theorem layer1_nonneg (env : SearchEnv) (ql : String) (mr : Nat) (m : ScoreMap)
    (h : EntriesNonneg m) : EntriesNonneg (layer1 env ql mr m) := by
  unfold layer1
  refine foldl_preserves EntriesNonneg _ (fun m r hm => ?_) _ m h
  exact updateScores_nonneg _ _ _ (fun s hs => nonnegS_max_fuzzy s _ hs) hm

theorem layer2aPattern_nonneg (env : SearchEnv) (p : String) (m : ScoreMap)
    (h : EntriesNonneg m) : EntriesNonneg (layer2aPattern env m p) := by
  unfold layer2aPattern
  refine foldl_preserves EntriesNonneg _ (fun m r hm => ?_) _ m h
  dsimp only
  split
  · exact updateScores_nonneg _ _ _ (fun s hs => nonnegS_max_semantic s _ hs) hm
  · exact hm

theorem layer2bPattern_nonneg (env : SearchEnv) (ks : ℚ) (p : String) (m : ScoreMap)
    (h : EntriesNonneg m) : EntriesNonneg (layer2bPattern env ks m p) := by
  unfold layer2bPattern
  refine foldl_preserves EntriesNonneg _ (fun m r hm => ?_) _ m h
  dsimp only
  split
  · exact updateScores_nonneg _ _ _ (fun s hs => nonnegS_max_semantic s _ hs) hm
  · exact hm

theorem layer2_nonneg (env : SearchEnv) (qw : List String) (m : ScoreMap)
    (h : EntriesNonneg m) : EntriesNonneg (layer2 env qw m) := by
  unfold layer2
  refine foldl_preserves EntriesNonneg _ (fun m w hm => ?_) _ m h
  unfold layer2Word
  refine foldl_preserves EntriesNonneg _ (fun m km hm => ?_) _ _ ?_
  · rcases smLookup km.1 with _ | pats
    · exact hm
    · exact foldl_preserves EntriesNonneg _ (fun m p hm => layer2bPattern_nonneg env km.2 p m hm) pats m hm
  · rcases smLookup w with _ | pats
    · exact hm
    · exact foldl_preserves EntriesNonneg _ (fun m p hm => layer2aPattern_nonneg env p m hm) pats m hm

theorem layer3aPattern_nonneg (env : SearchEnv) (p : String) (m : ScoreMap)
    (h : EntriesNonneg m) : EntriesNonneg (layer3aPattern env m p) := by
  unfold layer3aPattern
  refine foldl_preserves EntriesNonneg _ (fun m r hm => ?_) _ m h
  exact updateScores_nonneg _ _ _ (fun s hs => nonnegS_max_synonym s _ hs) hm

theorem layer3Synonym_nonneg (env : SearchEnv) (syn : String) (m : ScoreMap)
    (h : EntriesNonneg m) : EntriesNonneg (layer3Synonym env m syn) := by
  unfold layer3Synonym
  refine foldl_preserves EntriesNonneg _ (fun m r hm => ?_) _ _ ?_
  · exact updateScores_nonneg _ _ _ (fun s hs => nonnegS_max_synonym s _ hs) hm
  · rcases smLookup syn with _ | pats
    · exact h
    · exact foldl_preserves EntriesNonneg _ (fun m p hm => layer3aPattern_nonneg env p m hm) pats m h

theorem layer3_nonneg (env : SearchEnv) (qw : List String) (m : ScoreMap)
    (h : EntriesNonneg m) : EntriesNonneg (layer3 env qw m) := by
  unfold layer3
  refine foldl_preserves EntriesNonneg _ (fun m w hm => ?_) _ m h
  exact foldl_preserves EntriesNonneg _ (fun m syn hm => layer3Synonym_nonneg env syn m hm) _ m hm

theorem layer4Award_nonneg (env : SearchEnv) (pts : ℚ) (b : String) (m : ScoreMap)
    (h : EntriesNonneg m) : EntriesNonneg (layer4Award env pts m b) := by
  unfold layer4Award
  refine foldl_preserves EntriesNonneg _ (fun m v hm => ?_) _ m h
  dsimp only
  split
  · exact updateScores_nonneg _ _ _ (fun s hs => nonnegS_max_visual s _ hs) hm
  · exact hm

theorem layer4Tag_nonneg (env : SearchEnv) (ti : Nat) (pts : ℚ) (m : ScoreMap)
    (h : EntriesNonneg m) : EntriesNonneg (layer4Tag env ti pts m) := by
  unfold layer4Tag
  refine foldl_preserves EntriesNonneg _ (fun m bt hm => ?_) _ m h
  dsimp only
  split
  · exact layer4Award_nonneg env pts bt.1 m hm
  · exact hm

theorem layer4_nonneg (env : SearchEnv) (qw : List String) (m : ScoreMap)
    (h : EntriesNonneg m) : EntriesNonneg (layer4 env qw m) := by
  unfold layer4
  refine foldl_preserves EntriesNonneg _ (fun m w hm => ?_) _ m h
  unfold layer4Word
  refine foldl_preserves EntriesNonneg _ (fun m tm hm => ?_) _ _ ?_
  · rcases listIndexOf env.tagDict tm.1 with _ | mi
    · exact hm
    · exact layer4Tag_nonneg env mi _ m hm
  · rcases listIndexOf env.tagDict w with _ | ti
    · exact hm
    · exact layer4Tag_nonneg env ti 25 m hm

/-- The full pipeline produces a map whose records are all nonnegative. -/
theorem searchIconsMap_nonneg (env : SearchEnv) (q : String) (mr : Nat) :
    EntriesNonneg (searchIconsMap env q mr) := by
  unfold searchIconsMap
  exact layer4_nonneg env _ _
    (layer3_nonneg env _ _
      (layer2_nonneg env _ _
        (layer1_nonneg env _ mr _
          (layer0_nonneg _ _ [] entriesNonneg_nil))))

-- ============================================================================
-- Helper lemmas: the substring layer and exact word matches
-- ============================================================================

theorem substringStep_le (icn nl : List Char) (nw : List (List Char)) (best : Nat) (q : List Char) :
    best ≤ substringStep icn nl nw best q := by
  unfold substringStep
  split
  · exact le_max_left _ _
  · split
    · exact Nat.le_refl _
    · split
      · exact le_max_left _ _
      · exact le_max_left _ _

theorem substringStep_ge_350 (icn nl : List Char) (nw : List (List Char)) (best : Nat)
    (q : List Char) (hq : q ∈ nw) : 350 ≤ substringStep icn nl nw best q := by
  unfold substringStep
  rw [if_pos hq]
  exact le_max_right _ _

theorem foldl_nat_mono {α : Type} (f : Nat → α → Nat) (h : ∀ b x, b ≤ f b x) :
    ∀ (l : List α) (b : Nat), b ≤ l.foldl f b := by
  intro l
  induction l with
  | nil => intro b; exact Nat.le_refl b
  | cons x xs ih => intro b; exact le_trans (h b x) (ih (f b x))

/-- A query word that equals a lowercased PascalCase segment of the icon name
drives `getSubstringMatchScore` to at least 350 (the exact-word tier). -/
theorem getSubstringMatchScore_ge_350 (name : String) (qw : List String) (w : String)
    (hw : w ∈ qw) (hseg : w.data ∈ (splitPascalCase name.data).map (·.map jsLower)) :
    350 ≤ getSubstringMatchScore name qw := by
  unfold getSubstringMatchScore
  obtain ⟨l1, l2, rfl⟩ := List.append_of_mem hw
  rw [List.foldl_append, List.foldl_cons]
  refine le_trans (substringStep_ge_350 _ _ _ _ _ hseg)
    (foldl_nat_mono _ (fun b x => substringStep_le _ _ _ b x.data) l2 _)

/-- Substring scores stored in the map never exceed 100. -/
def SubstringLe100 (m : ScoreMap) : Prop := ∀ n, (getScores m n).substring ≤ 100

theorem substringLe100_nil : SubstringLe100 [] := by
  intro n
  show (LayerScores.zero).substring ≤ 100
  norm_num [LayerScores.zero]

theorem layer0Step_le100 (qw : List String) (m : ScoreMap) (x : IconSearchItem)
    (h : SubstringLe100 m) : SubstringLe100 (layer0Step qw m x) := by
  intro n
  unfold layer0Step
  dsimp only
  split
  · rw [getScores_updateScores]
    split
    · dsimp only
      refine max_le (h x.name) ?_
      split <;> norm_num
    · exact h n
  · exact h n

theorem layer0Step_keeps100 (qw : List String) (m : ScoreMap) (x : IconSearchItem) (nm : String)
    (h : (getScores m nm).substring = 100) :
    (getScores (layer0Step qw m x) nm).substring = 100 := by
  unfold layer0Step
  dsimp only
  split
  · rw [getScores_updateScores]
    by_cases he : nm = x.name
    · rw [if_pos he, ← he]
      dsimp only
      rw [h]
      refine max_eq_left ?_
      split <;> norm_num
    · rw [if_neg he]
      exact h
  · exact h

theorem layer0Step_sets100 (qw : List String) (m : ScoreMap) (E : IconSearchItem)
    (hraw : 350 ≤ getSubstringMatchScore E.name qw)
    (hle : (getScores m E.name).substring ≤ 100) :
    (getScores (layer0Step qw m E) E.name).substring = 100 := by
  unfold layer0Step
  dsimp only
  rw [if_pos (lt_of_lt_of_le (by norm_num) hraw), getScores_updateScores_self]
  dsimp only
  rw [if_pos hraw]
  exact max_eq_right hle

/-- Processing the whole catalog fixes the substring score of an
exact-word-matched item at exactly 100. -/
theorem layer0_substring_100 (qw : List String) (items : List IconSearchItem) (m : ScoreMap)
    (E : IconSearchItem) (hE : E ∈ items)
    (hraw : 350 ≤ getSubstringMatchScore E.name qw) (hm : SubstringLe100 m) :
    (getScores (layer0 items qw m) E.name).substring = 100 := by
  obtain ⟨l1, l2, rfl⟩ := List.append_of_mem hE
  unfold layer0
  rw [List.foldl_append, List.foldl_cons]
  have h1 : SubstringLe100 (l1.foldl (layer0Step qw) m) :=
    foldl_preserves SubstringLe100 _ (fun m x h => layer0Step_le100 qw m x h) l1 m hm
  have h2 : (getScores (layer0Step qw (l1.foldl (layer0Step qw) m) E) E.name).substring = 100 :=
    layer0Step_sets100 _ _ _ hraw (h1 E.name)
  have h3 : SubstringLe100 (layer0Step qw (l1.foldl (layer0Step qw) m) E) :=
    layer0Step_le100 _ _ _ h1
  exact (foldl_preserves
    (fun m => SubstringLe100 m ∧ (getScores m E.name).substring = 100) _
    (fun m x hx => ⟨layer0Step_le100 qw m x hx.1, layer0Step_keeps100 qw m x _ hx.2⟩)
    l2 _ ⟨h3, h2⟩).2

/-- A catalog name gives rise to its parsed `IconSearchItem`. -/
theorem mem_iconItems (catalog : List String) (name : String) (h : name ∈ catalog) :
    ({ name := name, baseName := (parseIconName name).1, variant := (parseIconName name).2 } :
      IconSearchItem) ∈ iconItems catalog := by
  unfold iconItems
  exact List.mem_map.mpr ⟨name, h, rfl⟩

-- ============================================================================
-- Demo environment for witnesses and counterexamples
-- ============================================================================

/-- A small concrete environment: three catalog icons, a fuzzy matcher that
matches the query `"beer"` to `DrinkBeerRegular` at distance 1/10, all other
collaborators empty. -/
def demoEnv : SearchEnv :=
  { catalog := ["DrinkBeerRegular", "DrinkBeerFilled", "GlobeErrorRegular"]
    iconFuse := fun q =>
      if q = "beer" then
        [({ name := "DrinkBeerRegular", baseName := "DrinkBeer", variant := "Regular" }, 1 / 10)]
      else []
    semanticFuse := fun _ => []
    tagFuse := fun _ => []
    tagDict := []
    visualTags := []
    synonyms := fun _ => []
    iconSizes := fun _ => [] }

-- ============================================================================
-- C1: an exact segment match forces substring = 100 and total = 100
-- ============================================================================

/-- C1: for every catalog entry and query, if some query word (after
lowercasing, trimming and whitespace splitting) equals, case-insensitively, a
PascalCase segment of the entry's name, then `searchIcons` assigns the entry a
substring-layer score of exactly 100 and a clamped total score of exactly 100
(the other layers are nonnegative, so the `min 100` clamp pins the total). -/
theorem claim_C1_exact_word_total_100 (env : SearchEnv) (query : String) (maxResults : Nat)
    (entry w : String)
    (hentry : entry ∈ env.catalog)
    (hw : w ∈ splitQueryWords (jsTrim (jsLowerStr query)))
    (hseg : w.data ∈ (splitPascalCase entry.data).map (·.map jsLower)) :
    (getScores (searchIconsMap env query maxResults) entry).substring = 100 ∧
    min 100 (getScores (searchIconsMap env query maxResults) entry).total = 100 := by
  have hsubchain :
      (getScores (searchIconsMap env query maxResults) entry).substring =
      (getScores (layer0 (iconItems env.catalog)
        (splitQueryWords (jsTrim (jsLowerStr query))) []) entry).substring := by
    unfold searchIconsMap
    exact ((layer4_field_eq (fun s => s.substring) (fun s v => rfl) env _ _ entry).trans
      ((layer3_field_eq (fun s => s.substring) (fun s v => rfl) env _ _ entry).trans
        ((layer2_field_eq (fun s => s.substring) (fun s v => rfl) env _ _ entry).trans
          (layer1_field_eq (fun s => s.substring) (fun s v => rfl) env _ maxResults _ entry))))
  have hraw : 350 ≤ getSubstringMatchScore entry (splitQueryWords (jsTrim (jsLowerStr query))) :=
    getSubstringMatchScore_ge_350 entry _ w hw hseg
  have hsub0 :
      (getScores (layer0 (iconItems env.catalog)
        (splitQueryWords (jsTrim (jsLowerStr query))) []) entry).substring = 100 :=
    layer0_substring_100 _ _ []
      { name := entry, baseName := (parseIconName entry).1, variant := (parseIconName entry).2 }
      (mem_iconItems env.catalog entry hentry) hraw substringLe100_nil
  have hsub : (getScores (searchIconsMap env query maxResults) entry).substring = 100 :=
    hsubchain.trans hsub0
  refine ⟨hsub, ?_⟩
  have hnn : NonnegS (getScores (searchIconsMap env query maxResults) entry) :=
    entriesNonneg_getScores _ (searchIconsMap_nonneg env query maxResults) entry
  have htot : 100 ≤ (getScores (searchIconsMap env query maxResults) entry).total := by
    unfold LayerScores.total
    rw [hsub]
    linarith [hnn.2.1, hnn.2.2.1, hnn.2.2.2.1, hnn.2.2.2.2]
  exact min_eq_left htot

/-- Witness for C1 at a concrete input: query "beer" against `demoEnv`. -/
theorem claim_C1_witness :
    (getScores (searchIconsMap demoEnv "beer" 20) "DrinkBeerRegular").substring = 100 ∧
    min 100 (getScores (searchIconsMap demoEnv "beer" 20) "DrinkBeerRegular").total = 100 :=
  claim_C1_exact_word_total_100 demoEnv "beer" 20 "DrinkBeerRegular" "beer"
    (by decide) (by decide) (by decide)

-- ============================================================================
-- C2: the PascalCase segmentation rule
-- ============================================================================

/-- The segmenter as described by the spec (for comparison with the source's
`splitPascalCase`): a new segment starts exactly at an uppercase letter that
follows a non-uppercase character, or at the start of the string — so runs of
consecutive uppercase letters stay in one segment. -/
def pascalSegmentsSpecAux : Char → List Char → List Char → List (List Char)
  | _, [], cur => [cur]
  | prev, c :: cs, cur =>
    if c.isUpper ∧ ¬prev.isUpper then cur :: pascalSegmentsSpecAux c cs [c]
    else pascalSegmentsSpecAux c cs (cur ++ [c])

/-- Spec-described segmenter entry point. -/
def pascalSegmentsSpec : List Char → List (List Char)
  | [] => []
  | c :: cs => pascalSegmentsSpecAux c cs [c]

/-- C2 counterexample: on a run of consecutive uppercase letters the source's
segmenter produces single-letter segments, not the one maximal segment the
spec describes — the code starts a new segment at EVERY character equal to
its own uppercase form, regardless of what precedes it. -/
theorem claim_C2_counterexample :
    splitPascalCase "PDF".data = [['P'], ['D'], ['F']] ∧
    pascalSegmentsSpec "PDF".data = [['P', 'D', 'F']] ∧
    splitPascalCase "PDF".data ≠ pascalSegmentsSpec "PDF".data := by
  refine ⟨by decide, by decide, by decide⟩

theorem splitPascalCaseAux_join (l : List Char) :
    ∀ cur : List Char, (splitPascalCaseAux l cur).flatten = cur ++ l := by
  induction l with
  | nil =>
    intro cur
    unfold splitPascalCaseAux
    split
    · rename_i h
      rw [List.isEmpty_iff] at h
      simp [h]
    · simp
  | cons c cs ih =>
    intro cur
    unfold splitPascalCaseAux
    split
    · simp [ih]
    · rw [ih]
      simp

theorem splitPascalCaseAux_ne_nil (l : List Char) :
    ∀ cur : List Char, ∀ w ∈ splitPascalCaseAux l cur, w ≠ [] := by
  induction l with
  | nil =>
    intro cur w hw
    unfold splitPascalCaseAux at hw
    split at hw
    · cases hw
    · rename_i h
      rw [List.mem_singleton] at hw
      subst hw
      intro hnil
      rw [hnil] at h
      exact h rfl
  | cons c cs ih =>
    intro cur w hw
    unfold splitPascalCaseAux at hw
    split at hw
    · rename_i h
      rcases List.mem_cons.mp hw with h1 | h2
      · subst h1
        intro hnil
        rw [hnil] at h
        simp at h
      · exact ih [c] w h2
    · exact ih (cur ++ [c]) w hw

theorem splitPascalCaseAux_tail_chars (l : List Char) :
    ∀ cur : List Char, (∀ c ∈ cur.drop 1, upperStable c = false) →
      ∀ w ∈ splitPascalCaseAux l cur, ∀ c ∈ w.drop 1, upperStable c = false := by
  induction l with
  | nil =>
    intro cur hcur w hw
    unfold splitPascalCaseAux at hw
    split at hw
    · cases hw
    · rw [List.mem_singleton] at hw
      subst hw
      exact hcur
  | cons c cs ih =>
    intro cur hcur w hw
    unfold splitPascalCaseAux at hw
    split at hw
    · rcases List.mem_cons.mp hw with h1 | h2
      · subst h1; exact hcur
      · exact ih [c] (by intro x hx; cases hx) w h2
    · rename_i hcond
      refine ih (cur ++ [c]) ?_ w hw
      match cur, hcur with
      | [], _ => intro x hx; cases hx
      | d :: ds, hcur =>
        intro x hx
        have hcf : upperStable c = false := by
          by_contra hct
          exact hcond ⟨by simpa using hct, by simp⟩
        rcases (by simpa using hx : x ∈ ds ∨ x = c) with h1 | h2
        · exact hcur x (by simpa using h1)
        · subst h2
          exact hcf

/-- A segment starting with a boundary character. -/
def HeadBound (w : List Char) : Prop := ∃ c cs, w = c :: cs ∧ upperStable c = true

theorem splitPascalCaseAux_heads (l : List Char) :
    ∀ cur : List Char,
      (cur ≠ [] → HeadBound cur → ∀ w ∈ splitPascalCaseAux l cur, HeadBound w) ∧
      (∀ w ∈ (splitPascalCaseAux l cur).drop 1, HeadBound w) := by
  induction l with
  | nil =>
    intro cur
    constructor
    · intro hne hhb w hw
      unfold splitPascalCaseAux at hw
      split at hw
      · cases hw
      · rw [List.mem_singleton] at hw
        subst hw
        exact hhb
    · intro w hw
      unfold splitPascalCaseAux at hw
      split at hw
      · cases hw
      · simp at hw
  | cons c cs ih =>
    intro cur
    constructor
    · intro hne hhb w hw
      unfold splitPascalCaseAux at hw
      split at hw
      · rename_i hcond
        rcases List.mem_cons.mp hw with h1 | h2
        · subst h1; exact hhb
        · exact (ih [c]).1 (by simp) ⟨c, [], rfl, by simpa using hcond.1⟩ w h2
      · rename_i hcond
        refine (ih (cur ++ [c])).1 (by simp) ?_ w hw
        obtain ⟨d, ds, hcur, hd⟩ := hhb
        exact ⟨d, ds ++ [c], by rw [hcur]; rfl, hd⟩
    · intro w hw
      unfold splitPascalCaseAux at hw
      split at hw
      · rename_i hcond
        rw [List.drop_one, List.tail_cons] at hw
        exact (ih [c]).1 (by simp) ⟨c, [], rfl, by simpa using hcond.1⟩ w hw
      · exact (ih (cur ++ [c])).2 w hw

/-- C2 amended: the source segmenter splits a name into non-empty segments
that concatenate back to the name; every segment after the first starts at a
character that equals its own uppercase form (uppercase letter, digit or
symbol), and no segment contains such a character after its head — so a new
segment starts at EVERY such character (not only at uppercase letters that
follow a non-uppercase character), and runs of consecutive uppercase letters
are split into single-letter segments. -/
theorem claim_C2_amended_segmenter (l : List Char) :
    (splitPascalCase l).flatten = l ∧
    (∀ w ∈ splitPascalCase l, w ≠ [] ∧ ∀ c ∈ w.drop 1, upperStable c = false) ∧
    (∀ w ∈ (splitPascalCase l).drop 1, ∃ c cs, w = c :: cs ∧ upperStable c = true) := by
  refine ⟨?_, ?_, ?_⟩
  · have h := splitPascalCaseAux_join l []
    simpa [splitPascalCase] using h
  · intro w hw
    exact ⟨splitPascalCaseAux_ne_nil l [] w hw,
      splitPascalCaseAux_tail_chars l [] (by intro x hx; cases hx) w hw⟩
  · intro w hw
    exact (splitPascalCaseAux_heads l []).2 w hw

/-- Witness for the amended C2 at the concrete name "PDF". -/
theorem claim_C2_amended_witness :
    (splitPascalCase "PDF".data).flatten = "PDF".data ∧
    (∀ w ∈ (splitPascalCase "PDF".data).drop 1, ∃ c cs, w = c :: cs ∧ upperStable c = true) :=
  ⟨(claim_C2_amended_segmenter "PDF".data).1, (claim_C2_amended_segmenter "PDF".data).2.2⟩

-- ============================================================================
-- C3: the synonym→concept bridge has no complete-segment guard
-- ============================================================================

/-- Environment exhibiting the missing guard: the query word "bin" has the
synonym "trash", which is a concept key with fragments `["Delete","Trash"]`;
the fuzzy matcher maps the fragment "Delete" to `UndeleteRegular` (a name
that contains "Delete" only inside the segment "Undelete"). -/
def unguardedEnv : SearchEnv :=
  { catalog := ["UndeleteRegular"]
    iconFuse := fun q =>
      if q = "Delete" then
        [({ name := "UndeleteRegular", baseName := "Undelete", variant := "Regular" }, 0)]
      else []
    semanticFuse := fun _ => []
    tagFuse := fun _ => []
    tagDict := []
    visualTags := []
    synonyms := fun w => if w = "bin" then ["trash"] else []
    iconSizes := fun _ => [] }

/-- C3 counterexample: the synonym layer's fragment expansion awards 20 points
to `UndeleteRegular` although neither fragment of the bridged concept key
"trash" occurs in it as a complete PascalCase segment — the source's Layer 3a
has no `containsPascalWord` guard, unlike Layer 2a/2b. -/
theorem claim_C3_counterexample :
    unguardedEnv.synonyms "bin" = ["trash"] ∧
    smLookup "trash" = some ["Delete", "Trash"] ∧
    containsPascalWord "UndeleteRegular" "Delete" = false ∧
    containsPascalWord "UndeleteRegular" "Trash" = false ∧
    (getScores (searchIconsMap unguardedEnv "bin" 20) "UndeleteRegular").synonym = 20 := by
  refine ⟨by decide, by decide, by decide, by decide, by decide⟩

theorem layer3aPattern_synonym_mono (env : SearchEnv) (p : String) (m : ScoreMap) (n : String) :
    (getScores m n).synonym ≤ (getScores (layer3aPattern env m p) n).synonym := by
  unfold layer3aPattern
  refine foldl_field_mono (fun s => s.synonym) _ (fun m r n => ?_) _ m n
  exact update_field_mono _ _ (fun s => le_max_left _ _) m _ n

theorem layer3Synonym_synonym_mono (env : SearchEnv) (syn : String) (m : ScoreMap) (n : String) :
    (getScores m n).synonym ≤ (getScores (layer3Synonym env m syn) n).synonym := by
  unfold layer3Synonym
  refine le_trans ?_ (foldl_field_mono (fun s => s.synonym) _
    (fun m r n => update_field_mono _ _ (fun s => le_max_left _ _) m _ n) _ _ n)
  rcases smLookup syn with _ | pats
  · exact le_refl _
  · exact foldl_field_mono (fun s => s.synonym) _
      (fun m p n => layer3aPattern_synonym_mono env p m n) pats m n

theorem layer3aPattern_ge (env : SearchEnv) (pattern : String) (m : ScoreMap)
    (item : IconSearchItem) (d : ℚ) (hr : (item, d) ∈ (env.iconFuse pattern).take 8) :
    20 * (1 - d) ≤ (getScores (layer3aPattern env m pattern) item.name).synonym := by
  obtain ⟨l1, l2, heq⟩ := List.append_of_mem hr
  unfold layer3aPattern
  rw [heq, List.foldl_append, List.foldl_cons]
  refine le_trans ?_ (foldl_field_mono (fun s => s.synonym) _
    (fun m r n => update_field_mono _ _ (fun s => le_max_left _ _) m _ n) l2 _ item.name)
  rw [getScores_updateScores_self]
  exact le_max_right _ _

theorem layer3Synonym_ge (env : SearchEnv) (syn : String) (m : ScoreMap)
    (item : IconSearchItem) (d : ℚ) (pats : List String) (pattern : String)
    (hsm : smLookup syn = some pats) (hp : pattern ∈ pats)
    (hr : (item, d) ∈ (env.iconFuse pattern).take 8) :
    20 * (1 - d) ≤ (getScores (layer3Synonym env m syn) item.name).synonym := by
  unfold layer3Synonym
  refine le_trans ?_ (foldl_field_mono (fun s => s.synonym) _
    (fun m r n => update_field_mono _ _ (fun s => le_max_left _ _) m _ n) _ _ item.name)
  rw [hsm]
  obtain ⟨p1, p2, hpeq⟩ := List.append_of_mem hp
  subst hpeq
  show 20 * (1 - d) ≤
    (getScores ((p1 ++ pattern :: p2).foldl (layer3aPattern env) m) item.name).synonym
  rw [List.foldl_append, List.foldl_cons]
  exact le_trans (layer3aPattern_ge env pattern _ item d hr)
    (foldl_field_mono (fun s => s.synonym) _
      (fun m p n => layer3aPattern_synonym_mono env p m n) p2 _ item.name)

theorem layer3_ge (env : SearchEnv) (qw : List String) (m : ScoreMap)
    (w syn : String) (pats : List String) (pattern : String)
    (item : IconSearchItem) (d : ℚ)
    (hw : w ∈ qw) (hsyn : syn ∈ env.synonyms w)
    (hsm : smLookup syn = some pats) (hp : pattern ∈ pats)
    (hr : (item, d) ∈ (env.iconFuse pattern).take 8) :
    20 * (1 - d) ≤ (getScores (layer3 env qw m) item.name).synonym := by
  unfold layer3
  obtain ⟨l1, l2, rfl⟩ := List.append_of_mem hw
  rw [List.foldl_append, List.foldl_cons]
  refine le_trans ?_ (foldl_field_mono (fun s => s.synonym) _
    (fun m word n => foldl_field_mono (fun s => s.synonym) _
      (fun m sy n => layer3Synonym_synonym_mono env sy m n) _ m n) l2 _ item.name)
  obtain ⟨s1, s2, hseq⟩ := List.append_of_mem hsyn
  rw [hseq, List.foldl_append, List.foldl_cons]
  exact le_trans (layer3Synonym_ge env syn _ item d pats pattern hsm hp hr)
    (foldl_field_mono (fun s => s.synonym) _
      (fun m sy n => layer3Synonym_synonym_mono env sy m n) s2 _ item.name)

/-- C3 amended: in the synonym layer, when a synonym of a query word is a
ConceptMapping key, the fragment expansion awards `20 * (1 - distance)`
points to EVERY catalog entry returned by the fragment's fuzzy match (among
the first 8), with NO complete-PascalCase-segment guard — the guard of Layer
2a/2b is absent from Layer 3a. -/
theorem claim_C3_amended_unguarded_bridge (env : SearchEnv) (query : String) (maxResults : Nat)
    (w syn : String) (pats : List String) (pattern : String)
    (item : IconSearchItem) (d : ℚ)
    (hw : w ∈ splitQueryWords (jsTrim (jsLowerStr query)))
    (hsyn : syn ∈ env.synonyms w)
    (hsm : smLookup syn = some pats) (hp : pattern ∈ pats)
    (hr : (item, d) ∈ (env.iconFuse pattern).take 8) :
    20 * (1 - d) ≤ (getScores (searchIconsMap env query maxResults) item.name).synonym := by
  have h4 : (getScores (searchIconsMap env query maxResults) item.name).synonym =
      (getScores (layer3 env (splitQueryWords (jsTrim (jsLowerStr query)))
        (layer2 env (splitQueryWords (jsTrim (jsLowerStr query)))
          (layer1 env (jsTrim (jsLowerStr query)) maxResults
            (layer0 (iconItems env.catalog)
              (splitQueryWords (jsTrim (jsLowerStr query))) [])))) item.name).synonym := by
    unfold searchIconsMap
    exact layer4_field_eq (fun s => s.synonym) (fun s v => rfl) env _ _ item.name
  rw [h4]
  exact layer3_ge env _ _ w syn pats pattern item d hw hsyn hsm hp hr

/-- Witness for the amended C3 at the concrete `unguardedEnv` input. -/
theorem claim_C3_amended_witness :
    20 * (1 - (0 : ℚ)) ≤
      (getScores (searchIconsMap unguardedEnv "bin" 20) "UndeleteRegular").synonym :=
  claim_C3_amended_unguarded_bridge unguardedEnv "bin" 20 "bin" "trash"
    ["Delete", "Trash"] "Delete"
    { name := "UndeleteRegular", baseName := "Undelete", variant := "Regular" } 0
    (by decide) (by decide) (by decide) (by decide) (by decide)

-- ============================================================================
-- Helper lemmas: the stable sort model
-- ============================================================================

theorem mem_sortInsert (le : ScoredIcon → ScoredIcon → Bool) (x y : ScoredIcon) :
    ∀ acc : List ScoredIcon, (y ∈ sortInsert le x acc ↔ y = x ∨ y ∈ acc) := by
  intro acc
  induction acc with
  | nil => simp [sortInsert]
  | cons z zs ih =>
    unfold sortInsert
    split
    · simp only [List.mem_cons, ih]
      tauto
    · simp only [List.mem_cons]

theorem mem_sortFinalScores_aux (l : List ScoredIcon) :
    ∀ (acc : List ScoredIcon) (y : ScoredIcon),
      (y ∈ l.foldl (fun acc x => sortInsert resultLE x acc) acc ↔ y ∈ acc ∨ y ∈ l) := by
  induction l with
  | nil => intro acc y; simp
  | cons x xs ih =>
    intro acc y
    rw [List.foldl_cons, ih, mem_sortInsert]
    simp only [List.mem_cons]
    tauto

theorem mem_sortFinalScores (l : List ScoredIcon) (y : ScoredIcon) :
    y ∈ sortFinalScores l ↔ y ∈ l := by
  unfold sortFinalScores
  rw [mem_sortFinalScores_aux]
  simp

-- ============================================================================
-- C4: totals are clamped sums of nonnegative layer maxima; zeros excluded
-- ============================================================================

/-- C4: every entry of the scored result list carries a total equal to the
sum of its five (nonnegative) per-layer maxima clamped at 100; the total is
positive (zero-total entries are excluded) and at most 100. -/
theorem claim_C4_total_clamped_sum (env : SearchEnv) (query : String) (maxResults : Nat) :
    ∀ r ∈ searchIconsScored env query maxResults,
      r.total = min 100 r.layers.total ∧ 0 < r.total ∧ r.total ≤ 100 ∧ NonnegS r.layers := by
  intro r hr
  have hr1 : r ∈ sortFinalScores (computeFinalScores (searchIconsMap env query maxResults)) :=
    (List.take_sublist _ _).subset hr
  have hr2 : r ∈ computeFinalScores (searchIconsMap env query maxResults) :=
    (mem_sortFinalScores _ r).mp hr1
  obtain ⟨e, hem, hfe⟩ := List.mem_filterMap.mp hr2
  dsimp only at hfe
  split at hfe
  · rename_i hpos
    rw [Option.some_inj] at hfe
    subst hfe
    exact ⟨rfl, hpos, min_le_left _ _,
      searchIconsMap_nonneg env query maxResults e hem⟩
  · cases hfe

/-- The top scored result of the `demoEnv` "beer" search. -/
def demoScored : ScoredIcon :=
  { name := "DrinkBeerRegular", total := 100
    layers := { substring := 100, fuzzy := 27 / 2, semantic := 0, visual := 0, synonym := 0 } }

/-- Witness for C4 at a concrete scored result of `demoEnv`. -/
theorem claim_C4_witness :
    demoScored.total = min 100 demoScored.layers.total ∧ 0 < demoScored.total ∧
      demoScored.total ≤ 100 ∧ NonnegS demoScored.layers :=
  claim_C4_total_clamped_sum demoEnv "beer" 20 demoScored (by decide)

-- ============================================================================
-- C5: ordering, tie-break and truncation of the result list
-- ============================================================================

theorem jsComparator_antisymm (a b : ScoredIcon) : jsComparator a b = -jsComparator b a := by
  unfold jsComparator
  by_cases h : b.total = a.total
  · rw [if_neg (by simp [h]), if_neg (by simp [h])]
    ring
  · rw [if_pos h, if_pos (fun he => h he.symm)]
    ring

theorem resultLE_iff (a b : ScoredIcon) :
    resultLE a b = true ↔ (b.total < a.total ∨ (b.total = a.total ∧ regRank b ≤ regRank a)) := by
  unfold resultLE jsComparator
  rw [decide_eq_true_iff]
  by_cases h : b.total = a.total
  · rw [if_neg (by simp [h])]
    constructor
    · intro hle
      exact Or.inr ⟨h, by linarith⟩
    · rintro (hlt | ⟨-, hle⟩)
      · exact absurd hlt (by rw [h]; exact lt_irrefl _)
      · linarith
  · rw [if_pos h]
    constructor
    · intro hle
      exact Or.inl (lt_of_le_of_ne (by linarith) h)
    · rintro (hlt | ⟨heq, -⟩)
      · linarith
      · exact absurd heq h

theorem resultLE_total_or (a b : ScoredIcon) : (resultLE a b || resultLE b a) = true := by
  rw [Bool.or_eq_true]
  unfold resultLE
  rcases le_total (jsComparator a b) 0 with h | h
  · exact Or.inl (decide_eq_true h)
  · refine Or.inr (decide_eq_true ?_)
    have := jsComparator_antisymm a b
    linarith

theorem resultLE_trans (a b c : ScoredIcon)
    (hab : resultLE a b = true) (hbc : resultLE b c = true) : resultLE a c = true := by
  rw [resultLE_iff] at hab hbc ⊢
  rcases hab with h1 | ⟨h1, h1r⟩
  · rcases hbc with h2 | ⟨h2, h2r⟩
    · exact Or.inl (lt_trans h2 h1)
    · exact Or.inl (h2 ▸ h1)
  · rcases hbc with h2 | ⟨h2, h2r⟩
    · exact Or.inl (h1 ▸ h2)
    · exact Or.inr ⟨h2.trans h1, le_trans h2r h1r⟩

theorem sortInsert_sorted (le : ScoredIcon → ScoredIcon → Bool)
    (htrans : ∀ a b c, le a b = true → le b c = true → le a c = true)
    (htotal : ∀ a b, (le a b || le b a) = true) (x : ScoredIcon) :
    ∀ acc : List ScoredIcon, List.Pairwise (le · · = true) acc →
      List.Pairwise (le · · = true) (sortInsert le x acc) := by
  intro acc
  induction acc with
  | nil => intro _; exact List.pairwise_singleton _ x
  | cons y ys ih =>
    intro h
    rw [List.pairwise_cons] at h
    unfold sortInsert
    split
    · rename_i hyx
      rw [List.pairwise_cons]
      refine ⟨?_, ih h.2⟩
      intro z hz
      rcases (mem_sortInsert le x z ys).mp hz with h1 | h2
      · subst h1; exact hyx
      · exact h.1 z h2
    · rename_i hyx
      have hxy : le x y = true := by
        have := htotal y x
        rw [Bool.or_eq_true] at this
        rcases this with h1 | h2
        · exact absurd h1 hyx
        · exact h2
      rw [List.pairwise_cons]
      refine ⟨?_, List.pairwise_cons.mpr ⟨h.1, h.2⟩⟩
      intro z hz
      rcases List.mem_cons.mp hz with h1 | h2
      · subst h1; exact hxy
      · exact htrans x y z hxy (h.1 z h2)

theorem sortFinalScores_sorted_aux (l : List ScoredIcon) :
    ∀ acc : List ScoredIcon, List.Pairwise (resultLE · · = true) acc →
      List.Pairwise (resultLE · · = true) (l.foldl (fun acc x => sortInsert resultLE x acc) acc) := by
  induction l with
  | nil => intro acc h; exact h
  | cons x xs ih =>
    intro acc h
    rw [List.foldl_cons]
    exact ih _ (sortInsert_sorted resultLE resultLE_trans resultLE_total_or x acc h)

theorem sortFinalScores_sorted (l : List ScoredIcon) :
    List.Pairwise (resultLE · · = true) (sortFinalScores l) :=
  sortFinalScores_sorted_aux l [] (List.Pairwise.nil)

/-- C5: the returned list has at most `maxResults` elements, and the scored
list it is built from is sorted by descending total, with Regular-suffixed
names at or above other names of equal total (in particular above equal-total
Filled variants). -/
theorem claim_C5_sorted_truncated (env : SearchEnv) (query : String) (maxResults : Nat) :
    (searchIcons env query maxResults).length ≤ maxResults ∧
    List.Pairwise
      (fun a b => b.total < a.total ∨
        (b.total = a.total ∧
          (jsEndsWith b.name "Regular" = true → jsEndsWith a.name "Regular" = true)))
      (searchIconsScored env query maxResults) := by
  constructor
  · unfold searchIcons searchIconsScored
    rw [List.length_map, List.length_take]
    exact min_le_left _ _
  · have hs := sortFinalScores_sorted (computeFinalScores (searchIconsMap env query maxResults))
    have hp : List.Pairwise
        (fun a b => b.total < a.total ∨
          (b.total = a.total ∧
            (jsEndsWith b.name "Regular" = true → jsEndsWith a.name "Regular" = true)))
        (sortFinalScores (computeFinalScores (searchIconsMap env query maxResults))) := by
      refine hs.imp ?_
      intro a b hab
      rcases (resultLE_iff a b).mp hab with h | ⟨heq, hrk⟩
      · exact Or.inl h
      · refine Or.inr ⟨heq, ?_⟩
        intro hb
        unfold regRank at hrk
        rw [if_pos hb] at hrk
        by_cases ha : jsEndsWith a.name "Regular" = true
        · exact ha
        · rw [if_neg ha] at hrk
          linarith
    exact hp.sublist (List.take_sublist _ _)

-- ============================================================================
-- C6: the fuzzy layer formula and the maxResults * 3 result limit
-- ============================================================================

/-- The best (lowest) normalized distance with which the fuzzy matcher
matches `name` (the spec's notion for the fuzzy-layer formula). -/
def bestDistance (results : List (IconSearchItem × ℚ)) (name : String) : Option ℚ :=
  ((results.filter fun r => r.1.name == name).map (·.2)).min?

/-- The running maximum of fuzzy-layer contributions for icon `n` over a
match list (the closed form of Layer 1's fold). -/
def fuzzyFold (n : String) (b : ℚ) (l : List (IconSearchItem × ℚ)) : ℚ :=
  l.foldl (fun b r => if r.1.name = n then max b ((1 - r.2) * 15) else b) b

theorem layer1_fuzzy_fold (l : List (IconSearchItem × ℚ)) :
    ∀ (m : ScoreMap) (n : String),
      (getScores (l.foldl layer1Step m) n).fuzzy = fuzzyFold n ((getScores m n).fuzzy) l := by
  induction l with
  | nil => intro m n; rfl
  | cons r rs ih =>
    intro m n
    unfold fuzzyFold
    rw [List.foldl_cons, List.foldl_cons, ih]
    unfold fuzzyFold
    congr 1
    unfold layer1Step
    rw [getScores_updateScores]
    by_cases h : n = r.1.name
    · rw [if_pos h, if_pos h.symm]
      dsimp only
      rw [h]
    · rw [if_neg h, if_neg fun he => h he.symm]

theorem layer0_fuzzy_zero (items : List IconSearchItem) (qw : List String) (n : String) :
    (getScores (layer0 items qw []) n).fuzzy = 0 := by
  have h := layer0_field_eq (fun s => s.fuzzy) (fun s v => rfl) qw items [] n
  simpa [getScores, LayerScores.zero] using h

/-- The fuzzy field of the final score map is exactly the Layer 1 fold over
the first `maxResults * 3` matches of the full query. -/
theorem searchIconsMap_fuzzy (env : SearchEnv) (q : String) (mr : Nat) (n : String) :
    (getScores (searchIconsMap env q mr) n).fuzzy =
      fuzzyFold n 0 ((env.iconFuse (jsTrim (jsLowerStr q))).take (mr * 3)) := by
  have hchain : (getScores (searchIconsMap env q mr) n).fuzzy =
      (getScores (layer1 env (jsTrim (jsLowerStr q)) mr
        (layer0 (iconItems env.catalog) (splitQueryWords (jsTrim (jsLowerStr q))) [])) n).fuzzy := by
    unfold searchIconsMap
    exact (layer4_field_eq (fun s => s.fuzzy) (fun s v => rfl) env _ _ n).trans
      ((layer3_field_eq (fun s => s.fuzzy) (fun s v => rfl) env _ _ n).trans
        (layer2_field_eq (fun s => s.fuzzy) (fun s v => rfl) env _ _ n))
  rw [hchain]
  unfold layer1
  rw [layer1_fuzzy_fold, layer0_fuzzy_zero]

theorem fuzzyFold_le (n : String) (c : ℚ) :
    ∀ (l : List (IconSearchItem × ℚ)) (b : ℚ), b ≤ c →
      (∀ r ∈ l, r.1.name = n → (1 - r.2) * 15 ≤ c) → fuzzyFold n b l ≤ c := by
  intro l
  induction l with
  | nil => intro b hb _; exact hb
  | cons r rs ih =>
    intro b hb hall
    unfold fuzzyFold
    rw [List.foldl_cons]
    refine ih _ ?_ fun r' hr' => hall r' (List.mem_cons_of_mem _ hr')
    dsimp only
    split
    · rename_i hname
      exact max_le hb (hall r (List.mem_cons_self _ _) hname)
    · exact hb

theorem fuzzyFold_ge_init (n : String) :
    ∀ (l : List (IconSearchItem × ℚ)) (b : ℚ), b ≤ fuzzyFold n b l := by
  intro l
  induction l with
  | nil => intro b; exact le_refl b
  | cons r rs ih =>
    intro b
    unfold fuzzyFold
    rw [List.foldl_cons]
    refine le_trans ?_ (ih _)
    dsimp only
    split
    · exact le_max_left _ _
    · exact le_refl b

theorem fuzzyFold_ge_mem (n : String) (l : List (IconSearchItem × ℚ)) (b : ℚ)
    (r₀ : IconSearchItem × ℚ) (hr : r₀ ∈ l) (hname : r₀.1.name = n) :
    (1 - r₀.2) * 15 ≤ fuzzyFold n b l := by
  obtain ⟨l1, l2, rfl⟩ := List.append_of_mem hr
  unfold fuzzyFold
  rw [List.foldl_append, List.foldl_cons]
  refine le_trans ?_ (fuzzyFold_ge_init n l2 _)
  dsimp only
  rw [if_pos hname]
  exact le_max_right _ _

/-- C6 counterexample environment: four catalog icons, the fuzzy matcher
returns all four at distance 0 for the query "q". With `maxResults = 1` the
Layer 1 limit is `1 * 3 = 3`, so the fourth match receives no fuzzy score. -/
def limitedEnv : SearchEnv :=
  { catalog := ["AlphaRegular", "BravoRegular", "CharlieRegular", "DeltaRegular"]
    iconFuse := fun s =>
      if s = "q" then
        [({ name := "AlphaRegular", baseName := "Alpha", variant := "Regular" }, 0),
         ({ name := "BravoRegular", baseName := "Bravo", variant := "Regular" }, 0),
         ({ name := "CharlieRegular", baseName := "Charlie", variant := "Regular" }, 0),
         ({ name := "DeltaRegular", baseName := "Delta", variant := "Regular" }, 0)]
      else []
    semanticFuse := fun _ => []
    tagFuse := fun _ => []
    tagDict := []
    visualTags := []
    synonyms := fun _ => []
    iconSizes := fun _ => [] }

/-- C6 counterexample: `DeltaRegular` is matched by the fuzzy matcher with
best distance 0, yet its fuzzy-layer contribution is 0, not
`(1 - 0) * 15 = 15` — Layer 1 only scores the first `maxResults * 3`
matches, not every matching entry. -/
theorem claim_C6_counterexample :
    bestDistance (limitedEnv.iconFuse (jsTrim (jsLowerStr "q"))) "DeltaRegular" = some 0 ∧
    (getScores (searchIconsMap limitedEnv "q" 1) "DeltaRegular").fuzzy = 0 ∧
    (0 : ℚ) ≠ (1 - 0) * 15 := by
  refine ⟨by decide, by decide, by decide⟩

/-- C6 amended: the per-entry formula `fuzzy = (1 - d) * 15` holds for every
entry appearing among the FIRST `maxResults * 3` fuzzy matches of the full
query (with `d` its best distance there, distances in [0,1]); entries beyond
that limit receive no fuzzy-layer contribution from their matches. -/
theorem claim_C6_amended_fuzzy_formula (env : SearchEnv) (q : String) (mr : Nat)
    (item : IconSearchItem) (d : ℚ)
    (h1 : (item, d) ∈ (env.iconFuse (jsTrim (jsLowerStr q))).take (mr * 3))
    (h2 : ∀ r ∈ (env.iconFuse (jsTrim (jsLowerStr q))).take (mr * 3),
      r.1.name = item.name → d ≤ r.2)
    (h3 : d ≤ 1) :
    (getScores (searchIconsMap env q mr) item.name).fuzzy = (1 - d) * 15 := by
  rw [searchIconsMap_fuzzy]
  refine le_antisymm ?_ ?_
  · refine fuzzyFold_le item.name ((1 - d) * 15) _ 0 ?_ ?_
    · nlinarith
    · intro r hr hname
      have hd := h2 r hr hname
      nlinarith
  · exact fuzzyFold_ge_mem item.name _ 0 (item, d) h1 rfl

/-- Witness for the amended C6: `AlphaRegular` is within the limit and gets
`(1 - 0) * 15`. -/
theorem claim_C6_amended_witness :
    (getScores (searchIconsMap limitedEnv "q" 1) "AlphaRegular").fuzzy = (1 - 0) * 15 :=
  claim_C6_amended_fuzzy_formula limitedEnv "q" 1
    { name := "AlphaRegular", baseName := "Alpha", variant := "Regular" } 0
    (by decide) (by decide) (by decide)

-- ============================================================================
-- C7: fuzzy-layer monotonicity in the threshold
-- ============================================================================

/-- The Fuse icon matcher as a threshold family: `base q` is the full match
list of pattern `q` sorted by ascending score, and the matcher built by
`createIconFuse(threshold)` keeps the matches whose score is at most the
threshold (Fuse's threshold semantics). -/
def envWithThreshold (env : SearchEnv) (base : String → List (IconSearchItem × ℚ)) (t : ℚ) :
    SearchEnv :=
  { env with iconFuse := fun q => (base q).filter fun r => decide (r.2 ≤ t) }

theorem filter_le_extends (t1 t2 : ℚ) (ht : t1 ≤ t2) :
    ∀ l : List (IconSearchItem × ℚ), List.Pairwise (fun a b => a.2 ≤ b.2) l →
      ∃ rest, (l.filter fun r => decide (r.2 ≤ t2)) =
        (l.filter fun r => decide (r.2 ≤ t1)) ++ rest := by
  intro l
  induction l with
  | nil => intro _; exact ⟨[], rfl⟩
  | cons a as ih =>
    intro hp
    rw [List.pairwise_cons] at hp
    by_cases h1 : a.2 ≤ t1
    · rw [List.filter_cons_of_pos (by simpa using le_trans h1 ht),
        List.filter_cons_of_pos (by simpa using h1)]
      obtain ⟨rest, hrest⟩ := ih hp.2
      exact ⟨rest, by rw [hrest, List.cons_append]⟩
    · have hnil : (as.filter fun r => decide (r.2 ≤ t1)) = [] := by
        rw [List.filter_eq_nil_iff]
        intro b hb
        simp only [decide_eq_true_eq]
        intro hble
        exact h1 (le_trans (hp.1 b hb) hble)
      have hcons : (List.filter (fun r => decide (r.2 ≤ t1)) (a :: as)) = [] := by
        rw [List.filter_cons_of_neg (by simpa using h1), hnil]
      exact ⟨List.filter (fun r => decide (r.2 ≤ t2)) (a :: as),
        by rw [hcons, List.nil_append]⟩

theorem fuzzyFold_append (n : String) (b : ℚ) (l1 l2 : List (IconSearchItem × ℚ)) :
    fuzzyFold n b (l1 ++ l2) = fuzzyFold n (fuzzyFold n b l1) l2 := by
  unfold fuzzyFold
  rw [List.foldl_append]

/-- C7: for a fixed entry and query, increasing the fuzzy threshold never
decreases the entry's fuzzy-layer contribution: the looser matcher's match
list extends the stricter one's (scores are sorted ascending and filtered by
the threshold), and Layer 1's running maximum only grows along a longer
prefix. -/
theorem claim_C7_fuzzy_monotone_threshold (env : SearchEnv)
    (base : String → List (IconSearchItem × ℚ)) (q : String) (mr : Nat) (n : String)
    (t1 t2 : ℚ)
    (hsort : List.Pairwise (fun a b => a.2 ≤ b.2) (base (jsTrim (jsLowerStr q))))
    (ht : t1 ≤ t2) :
    (getScores (searchIconsMap (envWithThreshold env base t1) q mr) n).fuzzy ≤
      (getScores (searchIconsMap (envWithThreshold env base t2) q mr) n).fuzzy := by
  rw [searchIconsMap_fuzzy, searchIconsMap_fuzzy]
  show fuzzyFold n 0 (((base (jsTrim (jsLowerStr q))).filter fun r =>
      decide (r.2 ≤ t1)).take (mr * 3)) ≤
    fuzzyFold n 0 (((base (jsTrim (jsLowerStr q))).filter fun r =>
      decide (r.2 ≤ t2)).take (mr * 3))
  obtain ⟨rest, hrest⟩ := filter_le_extends t1 t2 ht _ hsort
  rw [hrest, List.take_append_eq_append_take, fuzzyFold_append]
  exact fuzzyFold_ge_init n _ _

/-- Sorted base matcher for the C7 witness. -/
def monoBase (s : String) : List (IconSearchItem × ℚ) :=
  if s = "q" then
    [({ name := "AlphaRegular", baseName := "Alpha", variant := "Regular" }, 1 / 10),
     ({ name := "AlphaRegular", baseName := "Alpha", variant := "Regular" }, 1 / 2)]
  else []

/-- Witness for C7 at thresholds 1/10 ≤ 1/2 over a sorted two-match base. -/
theorem claim_C7_witness :
    (getScores (searchIconsMap (envWithThreshold demoEnv monoBase (1 / 10)) "q" 5)
      "AlphaRegular").fuzzy ≤
    (getScores (searchIconsMap (envWithThreshold demoEnv monoBase (1 / 2)) "q" 5)
      "AlphaRegular").fuzzy :=
  claim_C7_fuzzy_monotone_threshold demoEnv monoBase "q" 5 "AlphaRegular" (1 / 10) (1 / 2)
    (by decide) (by decide)

-- ============================================================================
-- C8: the input schema does not reject empty/out-of-range inputs
-- ============================================================================

/-- C8 counterexample: the empty query passes the zod schema, a call with
`maxResults = 0` and `threshold = 5` passes it as well, and the empty query
flows through `searchIcons` into a normal non-error "no icons" response —
nothing is rejected or surfaced as an input error. -/
theorem claim_C8_counterexample :
    inputSchemaAccepts "" 20 (1 / 10) = true ∧
    inputSchemaAccepts "icon" 0 5 = true ∧
    searchIcons demoEnv "" 20 = [] ∧
    (searchToolHandler demoEnv "" 20).isError = false := by
  refine ⟨by decide, by decide, by decide, by decide⟩

theorem layer0_nil_queryWords (items : List IconSearchItem) :
    ∀ m : ScoreMap, layer0 items [] m = m := by
  induction items with
  | nil => intro m; rfl
  | cons x xs ih =>
    intro m
    unfold layer0 at ih ⊢
    rw [List.foldl_cons]
    have hstep : layer0Step [] m x = m := rfl
    rw [hstep, ih]

/-- The handler never sets `isError` (no input validation beyond the schema
and no thrown exceptions in the pure pipeline). -/
theorem searchToolHandler_never_error (env : SearchEnv) (q : String) (mr : Nat) :
    (searchToolHandler env q mr).isError = false := by
  unfold searchToolHandler
  dsimp only
  split <;> rfl

/-- C8 amended: the schema accepts every call whose query has at most 500
characters — including empty/whitespace-only queries, `maxResults < 1` and
thresholds outside [0,1]; a whitespace-only query is silently coerced to a
normal, successful empty result (given that the fuzzy matcher returns no
matches for the empty pattern, as Fuse.js does). -/
theorem claim_C8_amended_no_validation (env : SearchEnv) (query : String) (maxResults : Nat)
    (mrq tq : ℚ)
    (hlen : query.data.length ≤ 500)
    (htrim : jsTrim (jsLowerStr query) = "")
    (hfuse : env.iconFuse "" = []) :
    inputSchemaAccepts query mrq tq = true ∧
    searchIcons env query maxResults = [] ∧
    (searchToolHandler env query maxResults).isError = false := by
  have hmap : searchIconsMap env query maxResults = [] := by
    unfold searchIconsMap
    rw [htrim]
    dsimp only
    have hqw : splitQueryWords "" = [] := rfl
    rw [hqw, layer0_nil_queryWords]
    unfold layer1
    rw [hfuse, List.take_nil]
    rfl
  refine ⟨decide_eq_true hlen, ?_, searchToolHandler_never_error env query maxResults⟩
  unfold searchIcons searchIconsScored
  rw [hmap, show computeFinalScores [] = [] from rfl, show sortFinalScores [] = [] from rfl,
    List.take_nil, List.map_nil]

/-- Witness for the amended C8 at the concrete empty query. -/
theorem claim_C8_amended_witness :
    inputSchemaAccepts "" 20 (1 / 10) = true ∧
    searchIcons demoEnv "" 20 = [] ∧
    (searchToolHandler demoEnv "" 20).isError = false :=
  claim_C8_amended_no_validation demoEnv "" 20 20 (1 / 10)
    (by decide) (by decide) (by decide)

-- ============================================================================
-- C9: the core itself constructs JSX and import-statement text
-- ============================================================================

/-- C9 counterexample: the first result of a `demoEnv` search carries a
`jsxElement` and an `importStatement` string rendered by the ranking core
itself — the produced record is not limited to name, category, sizes, score
and breakdown. -/
theorem claim_C9_counterexample :
    ((searchIcons demoEnv "beer" 20).head?.map fun r => (r.jsxElement, r.importStatement)) =
      some ("<DrinkBeerRegular />",
        "import \x7b DrinkBeerRegular \x7d from \"@fluentui/react-icons\";") ∧
    "<DrinkBeerRegular />" ≠ "" := by
  refine ⟨by decide, by decide⟩

/-- C9 amended: every result additionally exposes `jsxElement`,
`importStatement`, `scoreLayer` and the rounded breakdown, and the core
itself renders the JSX element string and the import statement from the
icon name; `category` is the parsed variant (or "Icon") and
`availableSizes` comes from the size table. -/
theorem claim_C9_amended_formatting (env : SearchEnv) (query : String) (maxResults : Nat) :
    ∀ r ∈ searchIcons env query maxResults,
      r.jsxElement = "<" ++ r.name ++ " />" ∧
      r.importStatement = "import \x7b " ++ r.name ++ " \x7d from \"@fluentui/react-icons\";" ∧
      r.category = (if (parseIconName r.name).2 = "" then "Icon" else (parseIconName r.name).2) ∧
      r.availableSizes = env.iconSizes r.name := by
  intro r hr
  obtain ⟨sc, hsc, hform⟩ := List.mem_map.mp hr
  subst hform
  exact ⟨rfl, rfl, rfl, rfl⟩

/-- Witness for the amended C9 at the first `demoEnv` "beer" result. -/
theorem claim_C9_amended_witness :
    (toIconResult demoEnv demoScored).jsxElement =
      "<" ++ (toIconResult demoEnv demoScored).name ++ " />" ∧
    (toIconResult demoEnv demoScored).importStatement =
      "import \x7b " ++ (toIconResult demoEnv demoScored).name ++
        " \x7d from \"@fluentui/react-icons\";" ∧
    (toIconResult demoEnv demoScored).category =
      (if (parseIconName (toIconResult demoEnv demoScored).name).2 = "" then "Icon"
        else (parseIconName (toIconResult demoEnv demoScored).name).2) ∧
    (toIconResult demoEnv demoScored).availableSizes =
      demoEnv.iconSizes (toIconResult demoEnv demoScored).name :=
  claim_C9_amended_formatting demoEnv "beer" 20 (toIconResult demoEnv demoScored) (by decide)

-- ============================================================================
-- C10: the synonym cache is append-only and per-key immutable
-- ============================================================================

theorem cacheGet_append_of_some (cache rest : SynCache) (w : String) (v : List String)
    (h : cacheGet cache w = some v) : cacheGet (cache ++ rest) w = some v := by
  induction cache with
  | nil => simp [cacheGet] at h
  | cons e es ih =>
    unfold cacheGet at h ih ⊢
    rw [List.cons_append]
    by_cases he : e.1 = w
    · rw [List.find?_cons_of_pos _ (by simpa using he)] at h
      rw [List.find?_cons_of_pos _ (by simpa using he)]
      exact h
    · rw [List.find?_cons_of_neg _ (by simpa using he)] at h
      rw [List.find?_cons_of_neg _ (by simpa using he)]
      exact ih h

theorem cacheGet_append_self (cache : SynCache) (w : String) (L : List String)
    (h : cacheGet cache w = none) : cacheGet (cache ++ [(w, L)]) w = some L := by
  induction cache with
  | nil => simp [cacheGet, List.find?]
  | cons e es ih =>
    unfold cacheGet at h ih ⊢
    rw [List.cons_append]
    by_cases he : e.1 = w
    · rw [List.find?_cons_of_pos _ (by simpa using he)] at h
      simp at h
    · rw [List.find?_cons_of_neg _ (by simpa using he)] at h
      rw [List.find?_cons_of_neg _ (by simpa using he)]
      exact ih h

/-- C10: `getSynonyms` (sequential model) never modifies an existing cache
entry; after a call, the cache holds exactly the returned list under the
looked-up word, and a repeated call returns the same list without touching
the cache again — so two calls after the first has settled yield identical
results. -/
theorem claim_C10_synonym_cache (env : SynonymEnv) (cache : SynCache) (word : String) :
    (∀ w v, cacheGet cache w = some v →
      cacheGet (getSynonymsModel env cache word).2 w = some v) ∧
    cacheGet (getSynonymsModel env cache word).2 word =
      some (getSynonymsModel env cache word).1 ∧
    getSynonymsModel env (getSynonymsModel env cache word).2 word =
      ((getSynonymsModel env cache word).1, (getSynonymsModel env cache word).2) := by
  by_cases h : ∃ v, cacheGet cache word = some v
  · obtain ⟨v, hv⟩ := h
    have heq : getSynonymsModel env cache word = (v, cache) := by
      unfold getSynonymsModel
      rw [hv]
    rw [heq]
    refine ⟨fun w v hw => hw, hv, ?_⟩
    unfold getSynonymsModel
    rw [hv]
  · have hnone : cacheGet cache word = none := by
      cases hc : cacheGet cache word
      · rfl
      · exact absurd ⟨_, hc⟩ h
    have hform : ∃ L, getSynonymsModel env cache word = (L, cache ++ [(word, L)]) := by
      unfold getSynonymsModel
      rw [hnone]
      dsimp only
      split
      · exact ⟨_, rfl⟩
      · exact ⟨_, rfl⟩
    obtain ⟨L, hL⟩ := hform
    rw [hL]
    have hself : cacheGet (cache ++ [(word, L)]) word = some L :=
      cacheGet_append_self cache word L hnone
    refine ⟨fun w v hw => cacheGet_append_of_some cache _ w v hw, hself, ?_⟩
    unfold getSynonymsModel
    rw [hself]

/-- A tiny synonym environment for the C10 witness. -/
def demoSynEnv : SynonymEnv :=
  { synLib := fun w => if w = "bin" then some [["trash"]] else none
    wordnetLookup := fun _ => [] }

/-- Witness for C10 at a concrete environment, word and empty cache. -/
theorem claim_C10_witness :
    cacheGet (getSynonymsModel demoSynEnv [] "bin").2 "bin" =
      some (getSynonymsModel demoSynEnv [] "bin").1 ∧
    getSynonymsModel demoSynEnv (getSynonymsModel demoSynEnv [] "bin").2 "bin" =
      ((getSynonymsModel demoSynEnv [] "bin").1, (getSynonymsModel demoSynEnv [] "bin").2) :=
  ⟨(claim_C10_synonym_cache demoSynEnv [] "bin").2.1,
    (claim_C10_synonym_cache demoSynEnv [] "bin").2.2⟩
